import Mathlib

/-
  Verification development for the real-time racing-lobby coordinator
  (src/src/racing/racing.gateway.ts and its schemas/services).

  The gateway's mutable state (connection registry, socket-to-player map,
  in-memory room directory, DB id counter) is embedded as a pure state
  record, and every WebSocket event handler is embedded as a pure function
  from state and message to a new state together with a list of observable
  outputs (direct sends, errors, room broadcasts, the directory-wide room
  list broadcast, and durable room deletions).  Durable-store reads are
  supplied by an environment; durable-store writes that can fail and whose
  failure changes control flow (a thrown promise rejection entering a catch
  block) are modelled by per-call-site success flags in the environment.
-/

namespace Racing

/-- A 3-component vector, as used for player positions and rotations. -/
structure Vec3 where
  x : Int
  y : Int
  z : Int
deriving DecidableEq, Repr

def Vec3.zero : Vec3 := ⟨0, 0, 0⟩

/-- Player readiness sub-state, from schemas/player.schema.ts. -/
inductive PlayerStatus where
  | Waiting
  | Ready
deriving DecidableEq, Repr

/-- Room status, from schemas/room.schema.ts. -/
inductive RoomStatus where
  | WAITING
  | RUNNING
  | FINISHED
deriving DecidableEq, Repr

/-- The per-room, per-connection player session (interface PlayerData).
Owned cars are represented by their numeric ids (PlayerCarEntry.id). -/
structure PlayerData where
  socketId : String
  playerName : String
  mainCar : Int
  ownerCars : List Int
  _id : String
  telegramId : String
  isHost : Bool
  position : Vec3
  rotation : Vec3
  speed : Int
  status : PlayerStatus
  distance : Int
  isLoaded : Bool
deriving DecidableEq, Repr

/-- In-memory room aggregate (interface RoomData).  The players field maps
socket ids to sessions; JavaScript object semantics are modelled by an
association list with set/delete helpers below. -/
structure RoomData where
  id : String
  value : Int
  password : Option String
  status : RoomStatus
  players : List (String × PlayerData)
deriving DecidableEq, Repr

/-- Lookup in a string-keyed association list (JS object property read). -/
def getEntry {α : Type} (m : List (String × α)) (k : String) : Option α :=
  match m.find? (fun e => e.1 == k) with
  | some e => some e.2
  | none => none

/-- Assignment in a string-keyed association list (JS object property
write): replaces the value in place when the key exists, appends otherwise. -/
def setEntry {α : Type} : List (String × α) → String → α → List (String × α)
  | [], k, v => [(k, v)]
  | e :: rest, k, v => if e.1 == k then (k, v) :: rest else e :: setEntry rest k v

/-- Deletion from a string-keyed association list (JS delete operator). -/
def delEntry {α : Type} (m : List (String × α)) (k : String) : List (String × α) :=
  m.filter (fun e => e.1 != k)

/-- The gateway's mutable fields: clients registry (socket ids with a live
transport handle), the socketId-to-playerId map, the in-memory room
directory, and the durable sequence counter used to mint room ids. -/
structure GState where
  clients : List String
  clientPlayerMap : List (String × String)
  rooms : List (String × RoomData)
  seq : Nat
deriving DecidableEq, Repr

/-- A durable player profile as returned by playerService.getPlayerWithId. -/
structure PlayerInfo where
  _id : String
  telegramId : String
  playerName : String
  mainCar : Int
  ownerCars : List Int
deriving DecidableEq, Repr

/-- The external environment: the persistence adapter's read results and,
for each durable write whose thrown failure alters the handler's control
flow, a success flag for that call site. -/
structure Env where
  getPlayerWithId : String → Option PlayerInfo
  createDbOk : Bool
  joinDbOk : Bool
  leaveDbOk : Bool
  leaveDeleteDbOk : Bool
  discDeleteDbOk : Bool
  kickDbOk : Bool
  readyDbOk : Bool
  carDbOk : Bool
  startDbOk : Bool
  startRevertDbOk : Bool
  waitingDbOk : Bool
deriving Inhabited

/-- Observable outputs of a handler invocation. -/
inductive Out where
  | sendTo (sid : String) (event : String)
  | errorTo (sid : String) (message : String)
  | roomCast (roomID : String) (event : String) (targets : List String)
  | roomList (ids : List String)
  | dbDeleteRoom (roomID : String)
deriving DecidableEq, Repr

/-- sendToClient: delivers only when the target is a registered connection
(an unregistered or closed socket is skipped silently). -/
def sendToClient (s : GState) (sid : String) (event : String) : List Out :=
  if s.clients.contains sid then [Out.sendTo sid event] else []

/-- sendError: an error envelope to one client, gated like sendToClient. -/
def sendErr (s : GState) (sid : String) (message : String) : List Out :=
  if s.clients.contains sid then [Out.errorTo sid message] else []

/-- The recipient list of a room-scoped broadcast: the room's session keys,
minus the excluded socket, restricted to registered connections. -/
def roomRecipients (s : GState) (room : RoomData) (excl : Option String) : List String :=
  (room.players.map (fun e => e.1)).filter
    (fun k => (some k != excl) && s.clients.contains k)

/-- broadcastToRoom: no-op for a missing or empty room, otherwise one
room-scoped emission. -/
def broadcastToRoom (s : GState) (roomID : String) (event : String)
    (excl : Option String) : List Out :=
  match getEntry s.rooms roomID with
  | none => []
  | some room =>
      if room.players.isEmpty then []
      else [Out.roomCast roomID event (roomRecipients s room excl)]

/-- getPublicRoomList, projected to the broadcast room ids (entries with a
falsy id are filtered out, as in the source). -/
def getPublicRoomList (s : GState) : List String :=
  ((s.rooms.map (fun e => e.2)).filter (fun r => r.id != "")).map (fun r => r.id)

/-- broadcastRoomList: the directory-wide roomListUpdated broadcast
(broadcastToAll returns early when no client is registered). -/
def broadcastRoomList (s : GState) : List Out :=
  if s.clients.isEmpty then [] else [Out.roomList (getPublicRoomList s)]

/-- Truthiness of the stored room password (null and the empty string are
falsy in the join guard). -/
def passTruthy : Option String → Bool
  | none => false
  | some s => s != ""

/-- Payload of the createRoom event. -/
structure CreateRoomDto where
  value : Int
  password : Option String
  playerId : String
deriving DecidableEq, Repr

/-- Payload of the joinRoom event. -/
structure JoinRoomDto where
  roomID : String
  playerId : String
  password : Option String
deriving DecidableEq, Repr

/-- Payload of the kickPlayer event. -/
structure KickPlayerDto where
  roomID : String
  targetSocketID : String
deriving DecidableEq, Repr

/-- Payload of the startGame event. -/
structure StartGameDto where
  roomID : String
  map : Int
deriving DecidableEq, Repr

/-- Payload of the waitingRoom event. -/
structure WaitingRoomDto where
  roomID : String
deriving DecidableEq, Repr

/-- Payload of the loadingGame event. -/
structure LoadingGameDto where
  roomID : String
  playerID : String
deriving DecidableEq, Repr

/-- Payload of the playerReady event. -/
structure PlayerReadyDto where
  roomID : String
  playerID : String
deriving DecidableEq, Repr

/-- Payload of the playerChangeCar event. -/
structure PlayerChangeCarDto where
  roomID : String
  playerID : String
  mainCar : Int
deriving DecidableEq, Repr

/-- Payload of the syncPosition and syncCarPosition events. -/
structure PositionSyncDto where
  roomID : String
  position : Vec3
  rotation : Vec3
  speed : Int
  distance : Option Int
deriving DecidableEq, Repr

/-- The createRoom handler.  Looks up the player profile, rejects when the
player id already holds a session in some room, creates the room (DB first,
then memory) with the creator as sole host session in Ready status, and
rebroadcasts the room list.  A durable-write failure is caught before any
in-memory mutation and reported as an error. -/
def createRoom (env : Env) (s : GState) (sid : String) (d : CreateRoomDto) :
    GState × List Out :=
  match env.getPlayerWithId d.playerId with
  | none => (s, sendErr s sid "Player not found.")
  | some p =>
    match s.rooms.find? (fun e => e.2.players.any (fun pl => pl.2._id == d.playerId)) with
    | some e => (s, sendErr s sid ("Player is already in room " ++ e.1 ++ "."))
    | none =>
      if !env.createDbOk then
        (s, sendErr s sid "Failed to create room.")
      else
        let nextId := toString (s.seq + 1)
        let hostPlayerData : PlayerData :=
          { _id := p._id
            socketId := sid
            telegramId := p.telegramId
            playerName := p.playerName
            mainCar := p.mainCar
            ownerCars := p.ownerCars
            isHost := true
            position := Vec3.zero
            rotation := Vec3.zero
            speed := 0
            status := PlayerStatus.Ready
            distance := 0
            isLoaded := false }
        let newRoom : RoomData :=
          { id := nextId
            value := d.value
            password := some (d.password.getD "")
            status := RoomStatus.WAITING
            players := [(sid, hostPlayerData)] }
        let s1 : GState :=
          { s with
            rooms := setEntry s.rooms nextId newRoom
            clientPlayerMap := setEntry s.clientPlayerMap sid p._id
            seq := s.seq + 1 }
        (s1, sendToClient s1 sid "roomDetails" ++ broadcastRoomList s1)

/-- The joinRoom handler.  Guards in source order: room present, room in
Waiting status, password match when the stored password is truthy, player
profile present, capacity below 5, player id not already holding a session
in any room.  On success the non-host session is created in Waiting status
and the roster and room list are rebroadcast. -/
def joinRoom (env : Env) (s : GState) (sid : String) (d : JoinRoomDto) :
    GState × List Out :=
  match getEntry s.rooms d.roomID with
  | none => (s, sendErr s sid "Room not found or is not active.")
  | some room =>
    if room.status != RoomStatus.WAITING then
      (s, sendErr s sid "Room is not waiting for players (already running or finished).")
    else if passTruthy room.password && room.password != d.password then
      (s, sendErr s sid "Incorrect password.")
    else
      match env.getPlayerWithId d.playerId with
      | none => (s, sendErr s sid "Player not found.")
      | some player =>
        if room.players.length ≥ 5 then
          (s, sendErr s sid "Room is full.")
        else
          match s.rooms.find? (fun e => e.2.players.any (fun pl => pl.2._id == d.playerId)) with
          | some e =>
            if e.1 == d.roomID then
              (s, sendErr s sid "You are already in this room.")
            else
              (s, sendErr s sid ("Player is already in another room (" ++ e.1 ++ ")."))
          | none =>
            if !env.joinDbOk then
              (s, sendErr s sid "Failed to join room.")
            else
              let newPlayerData : PlayerData :=
                { _id := player._id
                  socketId := sid
                  telegramId := player.telegramId
                  playerName := player.playerName
                  mainCar := player.mainCar
                  ownerCars := player.ownerCars
                  isHost := false
                  position := Vec3.zero
                  rotation := Vec3.zero
                  speed := 0
                  status := PlayerStatus.Waiting
                  distance := 0
                  isLoaded := false }
              let room1 := { room with players := setEntry room.players sid newPlayerData }
              let s1 : GState :=
                { s with
                  rooms := setEntry s.rooms d.roomID room1
                  clientPlayerMap := setEntry s.clientPlayerMap sid player._id }
              (s1,
                sendToClient s1 sid "roomDetails" ++
                broadcastToRoom s1 d.roomID "updatePlayers" (some sid) ++
                broadcastToRoom s1 d.roomID "playerJoined" (some sid) ++
                broadcastRoomList s1)

/-- The leaveRoom handler.  Finds the first room holding the sender's
session; absent a session it is a silent no-op.  Without a player-id map
entry only the in-memory session is dropped and the list rebroadcast.
Otherwise the session is removed, the durable membership updated (a
failure there aborts the rest), and either the room is torn down (host) or
the remaining roster is broadcast. -/
def leaveRoom (env : Env) (s : GState) (sid : String) : GState × List Out :=
  match s.rooms.find? (fun e => (getEntry e.2.players sid).isSome) with
  | none => (s, [])
  | some rme =>
    let roomIDToLeave := rme.1
    let room := rme.2
    let wasHost := match getEntry room.players sid with
      | some p => p.isHost
      | none => false
    match getEntry s.clientPlayerMap sid with
    | none =>
      let s1 : GState :=
        { s with
          rooms := setEntry s.rooms roomIDToLeave
            { room with players := delEntry room.players sid }
          clientPlayerMap := delEntry s.clientPlayerMap sid }
      (s1, broadcastRoomList s1)
    | some _ =>
      let out1 := sendToClient s sid "leftRoom"
      let room1 := { room with players := delEntry room.players sid }
      let s1 : GState :=
        { s with
          rooms := setEntry s.rooms roomIDToLeave room1
          clientPlayerMap := delEntry s.clientPlayerMap sid }
      if !env.leaveDbOk then
        (s1, out1)
      else if wasHost then
        let outClosed := broadcastToRoom s1 roomIDToLeave "roomClosed" none
        let s2 : GState := { s1 with rooms := delEntry s1.rooms roomIDToLeave }
        if !env.leaveDeleteDbOk then
          (s2, out1 ++ outClosed)
        else
          (s2, out1 ++ outClosed ++ [Out.dbDeleteRoom roomIDToLeave] ++ broadcastRoomList s2)
      else
        (s1,
          out1 ++
          broadcastToRoom s1 roomIDToLeave "updatePlayers" none ++
          broadcastToRoom s1 roomIDToLeave "playerLeft" none ++
          broadcastRoomList s1)

/-- handleDisconnect.  Idempotence guard first: a socket id no longer in
the registry is already cleaned up and produces no effect.  Otherwise the
at-most-one room holding the session is found; the host case tears the
room down (durable failures there are caught and only logged), the
non-host case broadcasts the remaining roster; both rebroadcast the room
list; the registry and map entries are removed last. -/
def handleDisconnect (env : Env) (s : GState) (sid : String) : GState × List Out :=
  if !(s.clients.contains sid) then (s, [])
  else
    match s.rooms.find? (fun e => (getEntry e.2.players sid).isSome) with
    | none =>
      ({ s with
          clients := s.clients.filter (fun c => c != sid)
          clientPlayerMap := delEntry s.clientPlayerMap sid }, [])
    | some rme =>
      let roomIDToUpdate := rme.1
      let room := rme.2
      let wasHost := match getEntry room.players sid with
        | some p => p.isHost
        | none => false
      let room1 := { room with players := delEntry room.players sid }
      let s1 : GState := { s with rooms := setEntry s.rooms roomIDToUpdate room1 }
      if wasHost then
        let outClosed := broadcastToRoom s1 roomIDToUpdate "roomClosed" none
        let s2 : GState := { s1 with rooms := delEntry s1.rooms roomIDToUpdate }
        let outDb := if env.discDeleteDbOk then [Out.dbDeleteRoom roomIDToUpdate] else []
        ({ s2 with
            clients := s2.clients.filter (fun c => c != sid)
            clientPlayerMap := delEntry s2.clientPlayerMap sid },
          outClosed ++ outDb ++ broadcastRoomList s2)
      else
        ({ s1 with
            clients := s1.clients.filter (fun c => c != sid)
            clientPlayerMap := delEntry s1.clientPlayerMap sid },
          broadcastToRoom s1 roomIDToUpdate "updatePlayers" none ++
          broadcastToRoom s1 roomIDToUpdate "playerLeft" none ++
          broadcastRoomList s1)

/-- The kickPlayer handler.  Self-kick rejected, then room present, sender
holds the host session, target holds a session in this room.  The target
is notified first, then removed from memory; a durable failure afterwards
reports an error instead of the roster broadcasts. -/
def kickPlayer (env : Env) (s : GState) (sid : String) (d : KickPlayerDto) :
    GState × List Out :=
  if sid == d.targetSocketID then
    (s, sendErr s sid "You cannot kick yourself.")
  else
    match getEntry s.rooms d.roomID with
    | none => (s, sendErr s sid "Room not found.")
    | some room =>
      match getEntry room.players sid with
      | none => (s, sendErr s sid "Only the host can kick players.")
      | some kicker =>
        if !kicker.isHost then
          (s, sendErr s sid "Only the host can kick players.")
        else
          match getEntry room.players d.targetSocketID with
          | none => (s, sendErr s sid "Target player not found in this room.")
          | some _ =>
            let outKick := sendToClient s d.targetSocketID "kicked"
            let room1 := { room with players := delEntry room.players d.targetSocketID }
            let s1 : GState :=
              { s with
                rooms := setEntry s.rooms d.roomID room1
                clientPlayerMap := delEntry s.clientPlayerMap d.targetSocketID }
            if !env.kickDbOk then
              (s1, outKick ++ sendErr s1 sid "Failed to kick player.")
            else
              (s1,
                outKick ++
                broadcastToRoom s1 d.roomID "updatePlayers" none ++
                broadcastToRoom s1 d.roomID "playerKicked" none ++
                broadcastRoomList s1)

/-- The playerReady handler.  A missing room is a silent no-op; a room not
in Waiting status or an identity mismatch is an error; an already-Ready
session is a silent no-op; otherwise the readiness is set in memory, the
durable mirror updated (on failure the catch block re-applies Ready and
rebroadcasts the roster after the error), and roster plus ready
announcement are broadcast. -/
def playerReady (env : Env) (s : GState) (sid : String) (d : PlayerReadyDto) :
    GState × List Out :=
  match getEntry s.rooms d.roomID with
  | none => (s, [])
  | some room =>
    if room.status != RoomStatus.WAITING then
      (s, sendErr s sid "Cannot change ready status now.")
    else
      match getEntry room.players sid with
      | none => (s, sendErr s sid "Player mismatch or not found in room.")
      | some player =>
        if player._id != d.playerID || getEntry s.clientPlayerMap sid != some d.playerID then
          (s, sendErr s sid "Player mismatch or not found in room.")
        else if player.status == PlayerStatus.Ready then
          (s, [])
        else
          let player1 := { player with status := PlayerStatus.Ready }
          let room1 := { room with players := setEntry room.players sid player1 }
          let s1 : GState := { s with rooms := setEntry s.rooms d.roomID room1 }
          if !env.readyDbOk then
            (s1,
              sendErr s1 sid "Failed to set ready status." ++
              broadcastToRoom s1 d.roomID "updatePlayers" none)
          else
            (s1,
              broadcastToRoom s1 d.roomID "updatePlayers" none ++
              broadcastToRoom s1 d.roomID "playerIsReady" none)

/-- The playerChangeCar handler.  A missing room is a silent no-op; a room
not in Waiting status or an identity mismatch is an error; a redundant
request for the already-selected car is a silent no-op (checked before
ownership); an unowned car is an error; otherwise the selection is updated
in memory, mirrored durably (failure yields an error after the in-memory
change), and the roster is broadcast. -/
def playerChangeCar (env : Env) (s : GState) (sid : String) (d : PlayerChangeCarDto) :
    GState × List Out :=
  match getEntry s.rooms d.roomID with
  | none => (s, [])
  | some room =>
    if room.status != RoomStatus.WAITING then
      (s, sendErr s sid "Cannot change car now.")
    else
      match getEntry room.players sid with
      | none => (s, sendErr s sid "Player mismatch or not found in room.")
      | some player =>
        if player._id != d.playerID || getEntry s.clientPlayerMap sid != some d.playerID then
          (s, sendErr s sid "Player mismatch or not found in room.")
        else if player.mainCar == d.mainCar then
          (s, [])
        else if !(player.ownerCars.any (fun c => c == d.mainCar)) then
          (s, sendErr s sid "You do not own this car.")
        else
          let player1 := { player with mainCar := d.mainCar }
          let room1 := { room with players := setEntry room.players sid player1 }
          let s1 : GState := { s with rooms := setEntry s.rooms d.roomID room1 }
          if !env.carDbOk then
            (s1, sendErr s1 sid "Failed to change car.")
          else
            (s1, broadcastToRoom s1 d.roomID "updatePlayers" none)

/-- The waitingRoom handler (updateStatusWaitingRoom): host-only reset of
the room status to Waiting; every non-host session's readiness is reset to
Waiting; broadcasts the reset, the roster and the room list.  A durable
failure is caught after the in-memory status change, with the player loop
and the broadcasts skipped. -/
def updateStatusWaitingRoom (env : Env) (s : GState) (sid : String) (d : WaitingRoomDto) :
    GState × List Out :=
  match getEntry s.rooms d.roomID with
  | none => (s, sendErr s sid "Room not found.")
  | some room =>
    let hostOk := match getEntry room.players sid with
      | some p => p.isHost
      | none => false
    if !hostOk then
      (s, sendErr s sid "Only the host can change status in the game.")
    else
      let room1 := { room with status := RoomStatus.WAITING }
      if !env.waitingDbOk then
        ({ s with rooms := setEntry s.rooms d.roomID room1 }, [])
      else
        let room2 :=
          { room1 with
            players := room1.players.map (fun pl =>
              (pl.1, if pl.2.isHost then pl.2 else { pl.2 with status := PlayerStatus.Waiting })) }
        let s1 : GState := { s with rooms := setEntry s.rooms d.roomID room2 }
        (s1,
          broadcastToRoom s1 d.roomID "updateWaitingRoom" none ++
          broadcastToRoom s1 d.roomID "updatePlayers" none ++
          broadcastRoomList s1)

/-- The startGame handler.  Guards in source order: room present, sender
holds the host session, room in Waiting status, at least one session,
every session Ready (the force-start flag is the constant false).  On
success the status becomes Running in memory and durably, every session's
transform and load flag are reset, and gameStarted plus the room list are
broadcast.  When the durable status update fails, the catch block reports
the failure, reverts the status to Waiting and every session's readiness
to Ready, and, when the compensating durable update succeeds, rebroadcasts
the room list and notifies the room of the failed start. -/
def startGame (env : Env) (s : GState) (sid : String) (d : StartGameDto) :
    GState × List Out :=
  match getEntry s.rooms d.roomID with
  | none => (s, sendErr s sid "Room not found.")
  | some room =>
    let hostOk := match getEntry room.players sid with
      | some p => p.isHost
      | none => false
    if !hostOk then
      (s, sendErr s sid "Only the host can start the game.")
    else if room.status != RoomStatus.WAITING then
      (s, sendErr s sid "Game cannot be started (not in WAITING state).")
    else if room.players.length < 1 then
      (s, sendErr s sid "Need at least 1 player(s) to start.")
    else if !(room.players.all (fun pl => pl.2.status == PlayerStatus.Ready)) then
      (s, sendErr s sid "Not all players are ready." ++ sendToClient s sid "playersNotReady")
    else
      let room1 := { room with status := RoomStatus.RUNNING }
      let s1 : GState := { s with rooms := setEntry s.rooms d.roomID room1 }
      if !env.startDbOk then
        let room2 :=
          { room1 with
            status := RoomStatus.WAITING
            players := room1.players.map (fun pl =>
              (pl.1, { pl.2 with status := PlayerStatus.Ready })) }
        let s2 : GState := { s1 with rooms := setEntry s1.rooms d.roomID room2 }
        if !env.startRevertDbOk then
          (s2, sendErr s2 sid "Failed to start game.")
        else
          (s2,
            sendErr s2 sid "Failed to start game." ++
            broadcastRoomList s2 ++
            broadcastToRoom s2 d.roomID "gameStartFailed" none)
      else
        let room2 :=
          { room1 with
            players := room1.players.map (fun pl =>
              (pl.1,
                { pl.2 with
                  isLoaded := false
                  distance := 0
                  position := Vec3.zero
                  rotation := Vec3.zero
                  speed := 0 })) }
        let s2 : GState := { s1 with rooms := setEntry s1.rooms d.roomID room2 }
        (s2,
          broadcastToRoom s2 d.roomID "gameStarted" none ++
          broadcastRoomList s2)

/-- The loadingGame handler.  All guard failures are silent: missing room,
room not Running, identity mismatch, or an already-loaded session.
Otherwise the session's load flag is set (and its status set to Ready),
the roster is broadcast, and when every currently-present session of the
now-updated, non-empty roster is loaded, the one-time allPlayersLoaded
signal is broadcast. -/
def loadingGame (s : GState) (sid : String) (d : LoadingGameDto) :
    GState × List Out :=
  match getEntry s.rooms d.roomID with
  | none => (s, [])
  | some room =>
    if room.status != RoomStatus.RUNNING then
      (s, [])
    else
      match getEntry room.players sid with
      | none => (s, [])
      | some player =>
        if player._id != d.playerID || getEntry s.clientPlayerMap sid != some d.playerID then
          (s, [])
        else if player.isLoaded then
          (s, [])
        else
          let player1 := { player with isLoaded := true, status := PlayerStatus.Ready }
          let room1 := { room with players := setEntry room.players sid player1 }
          let s1 : GState := { s with rooms := setEntry s.rooms d.roomID room1 }
          let outs1 := broadcastToRoom s1 d.roomID "updatePlayers" none
          if !room1.players.isEmpty && room1.players.all (fun pl => pl.2.isLoaded) then
            (s1, outs1 ++ broadcastToRoom s1 d.roomID "allPlayersLoaded" none)
          else
            (s1, outs1)

/-- The syncPosition handler.  Every guard failure (falsy room id, missing
room, room not Running, sender without a session) is a silent drop.
Otherwise the session's live transform is updated (distance only when
supplied) and the update is rebroadcast to the rest of the room. -/
def syncPosition (s : GState) (sid : String) (d : PositionSyncDto) :
    GState × List Out :=
  if d.roomID == "" then (s, [])
  else
    match getEntry s.rooms d.roomID with
    | none => (s, [])
    | some room =>
      if room.status != RoomStatus.RUNNING then (s, [])
      else
        match getEntry room.players sid with
        | none => (s, [])
        | some player =>
          let player1 :=
            { player with
              position := d.position
              rotation := d.rotation
              speed := d.speed
              distance := d.distance.getD player.distance }
          let room1 := { room with players := setEntry room.players sid player1 }
          let s1 : GState := { s with rooms := setEntry s.rooms d.roomID room1 }
          (s1, broadcastToRoom s1 d.roomID "playerPositionUpdate" (some sid))

/-- The syncCarPosition handler.  Same guards as syncPosition, every
failure a silent drop; broadcast-only: the received transform is relayed
to the rest of the room and no session state is mutated. -/
def syncCarPosition (s : GState) (sid : String) (d : PositionSyncDto) :
    GState × List Out :=
  if d.roomID == "" then (s, [])
  else
    match getEntry s.rooms d.roomID with
    | none => (s, [])
    | some room =>
      if room.status != RoomStatus.RUNNING then (s, [])
      else
        match getEntry room.players sid with
        | none => (s, [])
        | some _ =>
          (s, broadcastToRoom s d.roomID "carPositionUpdate" (some sid))

/-- Inbound events driving the state machine: a transport accept, the
routed client messages, and a transport close/error. -/
inductive Ev where
  | connect (sid : String)
  | create (sid : String) (d : CreateRoomDto)
  | join (sid : String) (d : JoinRoomDto)
  | leave (sid : String)
  | kick (sid : String) (d : KickPlayerDto)
  | disconnect (sid : String)
  | ready (sid : String) (d : PlayerReadyDto)
  | changeCar (sid : String) (d : PlayerChangeCarDto)
  | loading (sid : String) (d : LoadingGameDto)
  | start (sid : String) (d : StartGameDto)
  | waiting (sid : String) (d : WaitingRoomDto)
  | syncPos (sid : String) (d : PositionSyncDto)
  | syncCarPos (sid : String) (d : PositionSyncDto)
deriving DecidableEq, Repr

/-- Connection accept: registers the socket and sends it the current room
list and its socket id. -/
def connectClient (s : GState) (sid : String) : GState × List Out :=
  let s1 : GState :=
    { s with clients := if s.clients.contains sid then s.clients else s.clients ++ [sid] }
  (s1, [Out.sendTo sid "roomListUpdated", Out.sendTo sid "yourSocketId"])

/-- One dispatch step of the message router. -/
def step (env : Env) (s : GState) (e : Ev) : GState × List Out :=
  match e with
  | Ev.connect sid => connectClient s sid
  | Ev.create sid d => createRoom env s sid d
  | Ev.join sid d => joinRoom env s sid d
  | Ev.leave sid => leaveRoom env s sid
  | Ev.kick sid d => kickPlayer env s sid d
  | Ev.disconnect sid => handleDisconnect env s sid
  | Ev.ready sid d => playerReady env s sid d
  | Ev.changeCar sid d => playerChangeCar env s sid d
  | Ev.loading sid d => loadingGame s sid d
  | Ev.start sid d => startGame env s sid d
  | Ev.waiting sid d => updateStatusWaitingRoom env s sid d
  | Ev.syncPos sid d => syncPosition s sid d
  | Ev.syncCarPos sid d => syncCarPosition s sid d

/-- Run a sequence of events, concatenating the outputs. -/
def run (env : Env) (s : GState) : List Ev → GState × List Out
  | [] => (s, [])
  | e :: evs =>
    let r1 := step env s e
    let r2 := run env r1.1 evs
    (r2.1, r1.2 ++ r2.2)

/-- Every state visited while running a sequence of events, the initial
and final states included. -/
def statesOf (env : Env) (s : GState) : List Ev → List GState
  | [] => [s]
  | e :: evs => s :: statesOf env (step env s e).1 evs

/-- The startGame guard, as one predicate: the sender holds the host
session, the room is in Waiting status, the room has at least one session,
and every session is Ready. -/
def startGuard (room : RoomData) (sid : String) : Bool :=
  (match getEntry room.players sid with
    | some p => p.isHost
    | none => false) &&
  (room.status == RoomStatus.WAITING) &&
  (decide (1 ≤ room.players.length)) &&
  room.players.all (fun pl => pl.2.status == PlayerStatus.Ready)

/-- The room exists and its status is Running. -/
def runningIn (s : GState) (R : String) : Bool :=
  match getEntry s.rooms R with
  | some room => room.status == RoomStatus.RUNNING
  | none => false

/-- Every currently-present session of the room has its load flag set
(vacuously true for an absent or empty room). -/
def roomAllLoaded (s : GState) (R : String) : Bool :=
  match getEntry s.rooms R with
  | some room => room.players.all (fun pl => pl.2.isLoaded)
  | none => true

/-- The load barrier: the room exists, has at least one session, and every
currently-present session's load flag is set. -/
def roomBarrier (s : GState) (R : String) : Bool :=
  match getEntry s.rooms R with
  | some room => !room.players.isEmpty && room.players.all (fun pl => pl.2.isLoaded)
  | none => false

/-- Number of allPlayersLoaded broadcasts addressed to the given room in an
output trace. -/
def countAPL (R : String) (outs : List Out) : Nat :=
  (outs.filter (fun o =>
    match o with
    | Out.roomCast rid ev _ => rid == R && ev == "allPlayersLoaded"
    | _ => false)).length

/-- Sum of a weight over the values of an association list. -/
def wsum {α : Type} (w : α → Nat) (m : List (String × α)) : Nat :=
  (m.map (fun e => w e.2)).sum

/-- Number of sessions with the given player id in one room's players map. -/
def pcountPlayers (ps : List (String × PlayerData)) (pid : String) : Nat :=
  wsum (fun p => if p._id == pid then 1 else 0) ps

/-- Number of sessions with the given player id across the whole room
directory. -/
def pidCount (s : GState) (pid : String) : Nat :=
  wsum (fun r => pcountPlayers r.players pid) s.rooms

/-- The database invariant of findById: a returned profile carries the
queried id. -/
def EnvWf (env : Env) : Prop :=
  ∀ id p, env.getPlayerWithId id = some p → p._id = id

/-- The combined guard of syncCarPosition (and syncPosition): truthy room
id, room present and Running, sender holding a session. -/
def carSyncGuard (s : GState) (sid : String) (d : PositionSyncDto) : Bool :=
  d.roomID != "" &&
  (match getEntry s.rooms d.roomID with
   | some room => room.status == RoomStatus.RUNNING && (getEntry room.players sid).isSome
   | none => false)

theorem getEntry_nil {α : Type} (k : String) : getEntry ([] : List (String × α)) k = none :=
  rfl

theorem getEntry_cons {α : Type} (e : String × α) (rest : List (String × α)) (k : String) :
    getEntry (e :: rest) k = if e.1 = k then some e.2 else getEntry rest k := by
  simp only [getEntry, List.find?]
  cases h : e.1 == k
  · rw [if_neg (by simpa using h)]
  · rw [if_pos (by simpa using h)]

theorem delEntry_cons {α : Type} (e : String × α) (rest : List (String × α)) (k : String) :
    delEntry (e :: rest) k = if e.1 = k then delEntry rest k else e :: delEntry rest k := by
  simp only [delEntry, List.filter]
  cases h : e.1 != k
  · rw [if_pos (by simpa using h)]
  · rw [if_neg (by simpa using h)]

theorem setEntry_cons {α : Type} (e : String × α) (rest : List (String × α))
    (k : String) (v : α) :
    setEntry (e :: rest) k v = if e.1 = k then (k, v) :: rest else e :: setEntry rest k v := by
  simp only [setEntry]
  by_cases h : e.1 = k
  · rw [if_pos (by simpa using h), if_pos h]
  · rw [if_neg (by simpa using h), if_neg h]

theorem getEntry_setEntry_self {α : Type} (m : List (String × α)) (k : String) (v : α) :
    getEntry (setEntry m k v) k = some v := by
  induction m with
  | nil => simp [setEntry, getEntry_cons]
  | cons e rest ih =>
    rw [setEntry_cons]
    by_cases h : e.1 = k
    · rw [if_pos h, getEntry_cons]
      simp
    · rw [if_neg h, getEntry_cons, if_neg h]
      exact ih

theorem getEntry_setEntry_ne {α : Type} (m : List (String × α)) (k k' : String) (v : α)
    (h : k' ≠ k) : getEntry (setEntry m k v) k' = getEntry m k' := by
  induction m with
  | nil =>
    show getEntry [(k, v)] k' = none
    rw [getEntry_cons, if_neg (Ne.symm h)]
    rfl
  | cons e rest ih =>
    rw [setEntry_cons]
    by_cases he : e.1 = k
    · rw [if_pos he, getEntry_cons, getEntry_cons, if_neg (Ne.symm h), he, if_neg (Ne.symm h)]
    · rw [if_neg he, getEntry_cons, getEntry_cons]
      by_cases he' : e.1 = k'
      · rw [if_pos he', if_pos he']
      · rw [if_neg he', if_neg he']
        exact ih

theorem getEntry_delEntry_self {α : Type} (m : List (String × α)) (k : String) :
    getEntry (delEntry m k) k = none := by
  induction m with
  | nil => rfl
  | cons e rest ih =>
    rw [delEntry_cons]
    by_cases h : e.1 = k
    · rw [if_pos h]; exact ih
    · rw [if_neg h, getEntry_cons, if_neg h]; exact ih

theorem getEntry_delEntry_ne {α : Type} (m : List (String × α)) (k k' : String)
    (h : k' ≠ k) : getEntry (delEntry m k) k' = getEntry m k' := by
  induction m with
  | nil => rfl
  | cons e rest ih =>
    rw [delEntry_cons, getEntry_cons]
    by_cases he : e.1 = k
    · rw [if_pos he, if_neg (by rw [he]; exact Ne.symm h)]
      exact ih
    · rw [if_neg he, getEntry_cons]
      by_cases he' : e.1 = k'
      · rw [if_pos he', if_pos he']
      · rw [if_neg he', if_neg he']
        exact ih

/-- C9: syncCarPosition never mutates any state: neither the sender's
session nor any room of the directory; when its guards pass it emits
exactly the carPositionUpdate broadcast to the rest of the room, and on
any guard failure it is silently dropped, with no error reply and no
output at all. -/
theorem C9_syncCarPosition_broadcast_only :
    ∀ (s : GState) (sid : String) (d : PositionSyncDto),
      (syncCarPosition s sid d).1 = s ∧
      (∀ room, getEntry s.rooms d.roomID = some room → carSyncGuard s sid d = true →
        (syncCarPosition s sid d).2 =
          [Out.roomCast d.roomID "carPositionUpdate" (roomRecipients s room (some sid))]) ∧
      (carSyncGuard s sid d = false → (syncCarPosition s sid d).2 = []) := by
  intro s sid d
  refine ⟨?_, ?_, ?_⟩
  · unfold syncCarPosition
    split
    · rfl
    · split
      · rfl
      · split
        · rfl
        · split
          · rfl
          · rfl
  · intro room hroom hg
    unfold carSyncGuard at hg
    rw [hroom] at hg
    simp only [Bool.and_eq_true, beq_iff_eq, Option.isSome_iff_exists] at hg
    obtain ⟨hid, hst, p, hp⟩ := hg
    have hne : room.players.isEmpty = false := by
      cases hpl : room.players with
      | nil => rw [hpl] at hp; simp [getEntry] at hp
      | cons a l => simp [List.isEmpty]
    simp [syncCarPosition, hroom, hst, hp, hne, broadcastToRoom, hid,
      (by simpa using hid : d.roomID ≠ "")]
  · intro hg
    unfold carSyncGuard at hg
    by_cases hid : d.roomID = ""
    · simp [syncCarPosition, hid]
    · rw [(by simpa using hid : (d.roomID != "") = true)] at hg
      simp only [Bool.true_and] at hg
      cases hroom : getEntry s.rooms d.roomID with
      | none => simp [syncCarPosition, hid, hroom]
      | some room =>
        rw [hroom] at hg
        dsimp only at hg
        cases hst : room.status == RoomStatus.RUNNING with
        | false =>
          simp [syncCarPosition, hid, hroom,
            (by simpa using hst : room.status ≠ RoomStatus.RUNNING)]
        | true =>
          rw [hst] at hg
          simp only [Bool.true_and] at hg
          cases hp : getEntry room.players sid with
          | none => simp [syncCarPosition, hid, hroom, hp, (by simpa using hst : room.status = RoomStatus.RUNNING)]
          | some p => rw [hp] at hg; simp at hg

/-- Witness for C9 at a concrete Running room with two sessions. -/
theorem C9_witness :
    (syncCarPosition
        { clients := ["a", "b"], clientPlayerMap := [("a", "PA"), ("b", "PB")],
          rooms := [("7",
            { id := "7", value := 0, password := some "", status := RoomStatus.RUNNING,
              players :=
                [("a", { socketId := "a", playerName := "A", mainCar := 1, ownerCars := [1],
                         _id := "PA", telegramId := "t", isHost := true, position := Vec3.zero,
                         rotation := Vec3.zero, speed := 0, status := PlayerStatus.Ready,
                         distance := 0, isLoaded := true }),
                 ("b", { socketId := "b", playerName := "B", mainCar := 1, ownerCars := [1],
                         _id := "PB", telegramId := "t", isHost := false, position := Vec3.zero,
                         rotation := Vec3.zero, speed := 0, status := PlayerStatus.Ready,
                         distance := 0, isLoaded := true })] })],
          seq := 7 }
        "a"
        { roomID := "7", position := ⟨1, 2, 3⟩, rotation := ⟨4, 5, 6⟩, speed := 9,
          distance := some 11 }).1 =
      { clients := ["a", "b"], clientPlayerMap := [("a", "PA"), ("b", "PB")],
        rooms := [("7",
          { id := "7", value := 0, password := some "", status := RoomStatus.RUNNING,
            players :=
              [("a", { socketId := "a", playerName := "A", mainCar := 1, ownerCars := [1],
                       _id := "PA", telegramId := "t", isHost := true, position := Vec3.zero,
                       rotation := Vec3.zero, speed := 0, status := PlayerStatus.Ready,
                       distance := 0, isLoaded := true }),
               ("b", { socketId := "b", playerName := "B", mainCar := 1, ownerCars := [1],
                       _id := "PB", telegramId := "t", isHost := false, position := Vec3.zero,
                       rotation := Vec3.zero, speed := 0, status := PlayerStatus.Ready,
                       distance := 0, isLoaded := true })] })],
        seq := 7 } :=
  (C9_syncCarPosition_broadcast_only _ "a" _).1

/-- A fully-succeeding environment with three known player profiles. -/
def envAll : Env :=
  { getPlayerWithId := fun id =>
      if id == "P1" || id == "P2" || id == "P3" then
        some { _id := id, telegramId := "t", playerName := id, mainCar := 1, ownerCars := [1, 2] }
      else none
    createDbOk := true, joinDbOk := true, leaveDbOk := true, leaveDeleteDbOk := true,
    discDeleteDbOk := true, kickDbOk := true, readyDbOk := true, carDbOk := true,
    startDbOk := true, startRevertDbOk := true, waitingDbOk := true }

/-- A host session fixture on socket h. -/
def hostSession : PlayerData :=
  { socketId := "h", playerName := "H", mainCar := 1, ownerCars := [1, 2], _id := "P1",
    telegramId := "t", isHost := true, position := Vec3.zero, rotation := Vec3.zero,
    speed := 0, status := PlayerStatus.Ready, distance := 0, isLoaded := false }

/-- A non-host session fixture on socket g. -/
def guestSession : PlayerData :=
  { socketId := "g", playerName := "G", mainCar := 1, ownerCars := [1, 2], _id := "P2",
    telegramId := "t", isHost := false, position := Vec3.zero, rotation := Vec3.zero,
    speed := 0, status := PlayerStatus.Waiting, distance := 0, isLoaded := false }

/-- A password-protected room in Running status, with the host inside, and
one outside connection x. -/
def runningPwState : GState :=
  { clients := ["h", "x"]
    clientPlayerMap := [("h", "P1")]
    rooms := [("9",
      { id := "9", value := 5, password := some "pw", status := RoomStatus.RUNNING,
        players := [("h", hostSession)] })]
    seq := 9 }

/-- A password-protected room in Waiting status, with the host inside, and
one outside connection x. -/
def waitingPwState : GState :=
  { clients := ["h", "x"]
    clientPlayerMap := [("h", "P1")]
    rooms := [("9",
      { id := "9", value := 5, password := some "pw", status := RoomStatus.WAITING,
        players := [("h", hostSession)] })]
    seq := 9 }

/-- C6 counterexample: the join-room status guard runs before the password
guard, so a wrong-password join to a non-empty-password room that is not
in Waiting status is answered with the not-waiting error, not with the
message the claim requires, even though the directory is left unchanged. -/
theorem C6_counterexample :
    passTruthy (some "pw") = true ∧
    (some "pw" : Option String) ≠ some "xx" ∧
    (joinRoom envAll runningPwState "x"
        { roomID := "9", playerId := "P2", password := some "xx" }).2 =
      [Out.errorTo "x" "Room is not waiting for players (already running or finished)."] ∧
    Out.errorTo "x" "Incorrect password." ∉
      (joinRoom envAll runningPwState "x"
        { roomID := "9", playerId := "P2", password := some "xx" }).2 := by
  refine ⟨rfl, by decide, ?_, ?_⟩ <;> decide

/-- C6 (amended): for every room in Waiting status with a truthy (non-empty)
password, a joinRoom whose supplied password differs results in exactly one
error reply with message Incorrect password. and leaves the state (the
room's players map, status, and the rest of the directory) unchanged. -/
theorem C6_join_wrong_password (env : Env) (s : GState) (sid : String) (d : JoinRoomDto)
    (room : RoomData)
    (hroom : getEntry s.rooms d.roomID = some room)
    (hst : room.status = RoomStatus.WAITING)
    (hpw : passTruthy room.password = true)
    (hne : room.password ≠ d.password)
    (hc : s.clients.contains sid = true) :
    joinRoom env s sid d = (s, [Out.errorTo sid "Incorrect password."]) := by
  simp [joinRoom, hroom, hst, hpw, hne, sendErr, hc,
    (by simpa using hc : sid ∈ s.clients)]

/-- The Waiting password-protected room fixture. -/
def waitingPwRoom : RoomData :=
  { id := "9", value := 5, password := some "pw", status := RoomStatus.WAITING,
    players := [("h", hostSession)] }

/-- Witness for the amended C6 on a concrete Waiting room. -/
theorem C6_witness :
    joinRoom envAll waitingPwState "x" { roomID := "9", playerId := "P2", password := some "xx" } =
      (waitingPwState, [Out.errorTo "x" "Incorrect password."]) :=
  C6_join_wrong_password envAll waitingPwState "x"
    { roomID := "9", playerId := "P2", password := some "xx" } waitingPwRoom
    (by decide) (by decide) (by decide) (by decide) (by decide)

theorem contains_filter_ne_self (l : List String) (sid : String) :
    (l.filter (fun c => c != sid)).contains sid = false := by
  simp [List.mem_filter]

theorem handleDisconnect_not_registered (env : Env) (s : GState) (sid : String)
    (h : s.clients.contains sid = false) :
    handleDisconnect env s sid = (s, []) := by
  unfold handleDisconnect
  rw [if_pos (by rw [h]; rfl)]

theorem handleDisconnect_clients (env : Env) (s : GState) (sid : String)
    (h : s.clients.contains sid = true) :
    ((handleDisconnect env s sid).1).clients = s.clients.filter (fun c => c != sid) := by
  unfold handleDisconnect
  rw [if_neg (by rw [h]; decide)]
  dsimp only
  split
  · rfl
  · split
    · rfl
    · rfl

/-- C5: disconnect cleanup is idempotent.  A connection identifier absent
from the registry produces no state change and no message, and processing
the same identifier a second time leaves the once-processed state
unchanged with no message, so running disconnect twice equals running it
once. -/
theorem C5_handleDisconnect_idempotent :
    ∀ (env : Env) (s : GState) (sid : String),
      (s.clients.contains sid = false → handleDisconnect env s sid = (s, [])) ∧
      handleDisconnect env (handleDisconnect env s sid).1 sid =
        ((handleDisconnect env s sid).1, []) := by
  intro env s sid
  refine ⟨handleDisconnect_not_registered env s sid, ?_⟩
  cases hc : s.clients.contains sid with
  | false =>
    rw [handleDisconnect_not_registered env s sid hc]
    exact handleDisconnect_not_registered env s sid hc
  | true =>
    apply handleDisconnect_not_registered
    rw [handleDisconnect_clients env s sid hc]
    exact contains_filter_ne_self s.clients sid

/-- Witness for C5: the unregistered socket z is a no-op on a concrete
state, and disconnecting the registered host twice equals doing it once. -/
theorem C5_witness :
    handleDisconnect envAll runningPwState "z" = (runningPwState, []) ∧
    handleDisconnect envAll (handleDisconnect envAll runningPwState "h").1 "h" =
      ((handleDisconnect envAll runningPwState "h").1, []) :=
  ⟨(C5_handleDisconnect_idempotent envAll runningPwState "z").1 (by decide),
   (C5_handleDisconnect_idempotent envAll runningPwState "h").2⟩

theorem setEntry_setEntry_same {α : Type} (m : List (String × α)) (k : String) (v w : α) :
    setEntry (setEntry m k v) k w = setEntry m k w := by
  induction m with
  | nil => simp [setEntry]
  | cons e rest ih =>
    rw [setEntry_cons]
    by_cases h : e.1 = k
    · rw [if_pos h, setEntry_cons, setEntry_cons, if_pos h]
      simp [setEntry_cons]
    · rw [if_neg h, setEntry_cons, if_neg h, setEntry_cons, if_neg h, ih]

/-- The state update applied by a successful start: status Running and
every session's transform and load flag reset. -/
def startedRoom (room : RoomData) : RoomData :=
  { room with
    status := RoomStatus.RUNNING
    players := room.players.map (fun pl =>
      (pl.1,
        { pl.2 with
          isLoaded := false
          distance := 0
          position := Vec3.zero
          rotation := Vec3.zero
          speed := 0 })) }

theorem startGame_guard_true (env : Env) (s : GState) (sid : String) (d : StartGameDto)
    (room : RoomData)
    (hroom : getEntry s.rooms d.roomID = some room)
    (hdb : env.startDbOk = true)
    (hg : startGuard room sid = true) :
    (startGame env s sid d).1 =
      { s with rooms := setEntry s.rooms d.roomID (startedRoom room) } := by
  unfold startGuard at hg
  simp only [Bool.and_eq_true, beq_iff_eq, decide_eq_true_eq] at hg
  obtain ⟨⟨⟨hhost, hst⟩, hlen⟩, hall⟩ := hg
  unfold startGame
  rw [hroom]
  dsimp only
  rw [hhost]
  rw [if_neg (by decide)]
  rw [if_neg (by simp [hst])]
  rw [if_neg (by omega)]
  rw [if_neg (by simp [hall])]
  rw [hdb]
  rw [if_neg (by decide)]
  dsimp only
  rw [setEntry_setEntry_same]
  rfl

theorem startGame_guard_false (env : Env) (s : GState) (sid : String) (d : StartGameDto)
    (room : RoomData)
    (hroom : getEntry s.rooms d.roomID = some room)
    (hc : s.clients.contains sid = true)
    (hg : startGuard room sid = false) :
    (startGame env s sid d).1 = s ∧ ∃ m, Out.errorTo sid m ∈ (startGame env s sid d).2 := by
  have hcm : sid ∈ s.clients := by simpa using hc
  unfold startGuard at hg
  unfold startGame
  rw [hroom]
  dsimp only
  cases hhost : (match getEntry room.players sid with
      | some p => p.isHost
      | none => false) with
  | false =>
    rw [if_pos (by rfl)]
    exact ⟨rfl, "Only the host can start the game.", by simp [sendErr, hcm]⟩
  | true =>
    rw [if_neg (by decide)]
    rw [hhost] at hg
    simp only [Bool.true_and] at hg
    by_cases hst : room.status = RoomStatus.WAITING
    · rw [if_neg (by simp [hst])]
      rw [(by simp [hst] : (room.status == RoomStatus.WAITING) = true)] at hg
      simp only [Bool.true_and] at hg
      by_cases hlen : room.players.length < 1
      · rw [if_pos hlen]
        exact ⟨rfl, "Need at least 1 player(s) to start.", by simp [sendErr, hcm]⟩
      · rw [if_neg hlen]
        rw [(by simp only [decide_eq_true_eq]; omega : (decide (1 ≤ room.players.length)) = true)] at hg
        simp only [Bool.true_and] at hg
        rw [if_pos (by rw [hg]; rfl)]
        exact ⟨rfl, "Not all players are ready.", by simp [sendErr, hcm]⟩
    · rw [if_pos (by simp [hst])]
      exact ⟨rfl, "Game cannot be started (not in WAITING state).", by simp [sendErr, hcm]⟩

/-- C1: for a room of the directory (with the durable status update
succeeding and the sender registered), startGame flips the room to Running
iff the sender holds the host session, the room was in Waiting status, the
room has at least one session, and every session is Ready; on success the
sessions are the same set and every session's transform (position,
rotation, speed, distance) is reset to zero and its load flag cleared; on
any guard failure the whole state is unchanged and an error is sent to the
sender. -/
theorem C1_startGame_iff (env : Env) (s : GState) (sid : String) (d : StartGameDto)
    (room : RoomData)
    (hroom : getEntry s.rooms d.roomID = some room)
    (hdb : env.startDbOk = true)
    (hc : s.clients.contains sid = true) :
    ((((getEntry (startGame env s sid d).1.rooms d.roomID).map RoomData.status =
        some RoomStatus.RUNNING) ∧ room.status = RoomStatus.WAITING) ↔
      startGuard room sid = true) ∧
    (startGuard room sid = true →
      ∃ room', getEntry (startGame env s sid d).1.rooms d.roomID = some room' ∧
        room'.status = RoomStatus.RUNNING ∧
        room'.players.map Prod.fst = room.players.map Prod.fst ∧
        ∀ pr ∈ room'.players,
          pr.2.position = Vec3.zero ∧ pr.2.rotation = Vec3.zero ∧ pr.2.speed = 0 ∧
          pr.2.distance = 0 ∧ pr.2.isLoaded = false) ∧
    (startGuard room sid = false →
      (startGame env s sid d).1 = s ∧
      ∃ m, Out.errorTo sid m ∈ (startGame env s sid d).2) := by
  have hsucc : startGuard room sid = true →
      getEntry (startGame env s sid d).1.rooms d.roomID = some (startedRoom room) := by
    intro hg
    rw [startGame_guard_true env s sid d room hroom hdb hg]
    exact getEntry_setEntry_self _ _ _
  refine ⟨?_, ?_, startGame_guard_false env s sid d room hroom hc⟩
  · constructor
    · intro ⟨hrun, hwait⟩
      cases hg : startGuard room sid with
      | true => rfl
      | false =>
        rcases startGame_guard_false env s sid d room hroom hc hg with ⟨heq, -⟩
        rw [heq, hroom] at hrun
        simp only [Option.map_some'] at hrun
        rw [hwait] at hrun
        exact absurd (Option.some.inj hrun) (by decide)
    · intro hg
      refine ⟨?_, ?_⟩
      · rw [hsucc hg]
        rfl
      · unfold startGuard at hg
        simp only [Bool.and_eq_true, beq_iff_eq] at hg
        exact hg.1.1.2
  · intro hg
    refine ⟨startedRoom room, hsucc hg, rfl, ?_, ?_⟩
    · simp [startedRoom, Function.comp]
    · intro pr hpr
      unfold startedRoom at hpr
      simp only [List.mem_map] at hpr
      obtain ⟨pl, -, hpl⟩ := hpr
      rw [← hpl]
      exact ⟨rfl, rfl, rfl, rfl, rfl⟩

/-- A two-session Waiting room, both sessions Ready, host on socket h. -/
def readyRoom : RoomData :=
  { id := "4", value := 10, password := some "", status := RoomStatus.WAITING,
    players :=
      [("h", hostSession),
       ("g", { guestSession with status := PlayerStatus.Ready })] }

/-- A directory state holding readyRoom. -/
def readyState : GState :=
  { clients := ["h", "g"]
    clientPlayerMap := [("h", "P1"), ("g", "P2")]
    rooms := [("4", readyRoom)]
    seq := 4 }

/-- Witness for C1 at a concrete all-Ready Waiting room. -/
theorem C1_witness :
    ((((getEntry (startGame envAll readyState "h" { roomID := "4", map := 2 }).1.rooms "4").map
        RoomData.status = some RoomStatus.RUNNING) ∧
        readyRoom.status = RoomStatus.WAITING) ↔
      startGuard readyRoom "h" = true) ∧
    (startGuard readyRoom "h" = true →
      ∃ room', getEntry (startGame envAll readyState "h" { roomID := "4", map := 2 }).1.rooms "4" =
          some room' ∧
        room'.status = RoomStatus.RUNNING ∧
        room'.players.map Prod.fst = readyRoom.players.map Prod.fst ∧
        ∀ pr ∈ room'.players,
          pr.2.position = Vec3.zero ∧ pr.2.rotation = Vec3.zero ∧ pr.2.speed = 0 ∧
          pr.2.distance = 0 ∧ pr.2.isLoaded = false) ∧
    (startGuard readyRoom "h" = false →
      (startGame envAll readyState "h" { roomID := "4", map := 2 }).1 = readyState ∧
      ∃ m, Out.errorTo "h" m ∈ (startGame envAll readyState "h" { roomID := "4", map := 2 }).2) :=
  C1_startGame_iff envAll readyState "h" { roomID := "4", map := 2 } readyRoom
    (by decide) (by decide) (by decide)

/-- The state update applied by the start-game catch block: status back to
Waiting and every session's readiness set (back) to Ready. -/
def revertedRoom (room : RoomData) : RoomData :=
  { room with
    status := RoomStatus.WAITING
    players := room.players.map (fun pl => (pl.1, { pl.2 with status := PlayerStatus.Ready })) }

theorem startGame_db_fail (env : Env) (s : GState) (sid : String) (d : StartGameDto)
    (room : RoomData)
    (hroom : getEntry s.rooms d.roomID = some room)
    (hdb : env.startDbOk = false)
    (hg : startGuard room sid = true) :
    (startGame env s sid d).1 =
      { s with rooms := setEntry s.rooms d.roomID (revertedRoom room) } ∧
    (env.startRevertDbOk = false →
      (startGame env s sid d).2 =
        sendErr { s with rooms := setEntry s.rooms d.roomID (revertedRoom room) } sid
          "Failed to start game.") ∧
    (env.startRevertDbOk = true →
      (startGame env s sid d).2 =
        sendErr { s with rooms := setEntry s.rooms d.roomID (revertedRoom room) } sid
          "Failed to start game." ++
        broadcastRoomList { s with rooms := setEntry s.rooms d.roomID (revertedRoom room) } ++
        broadcastToRoom { s with rooms := setEntry s.rooms d.roomID (revertedRoom room) }
          d.roomID "gameStartFailed" none) := by
  unfold startGuard at hg
  simp only [Bool.and_eq_true, beq_iff_eq, decide_eq_true_eq] at hg
  obtain ⟨⟨⟨hhost, hst⟩, hlen⟩, hall⟩ := hg
  unfold startGame
  rw [hroom]
  dsimp only
  rw [hhost]
  rw [if_neg (by decide)]
  rw [if_neg (by simp [hst])]
  rw [if_neg (by omega)]
  rw [if_neg (by simp [hall])]
  rw [hdb]
  rw [if_pos (by rfl)]
  rw [setEntry_setEntry_same]
  cases hrev : env.startRevertDbOk with
  | false =>
    rw [if_pos (by rfl)]
    exact ⟨rfl, fun _ => rfl, fun h => absurd h (by decide)⟩
  | true =>
    rw [if_neg (by decide)]
    exact ⟨rfl, fun h => absurd h (by decide), fun _ => rfl⟩

theorem playerReady_db_fail (env : Env) (s : GState) (sid : String) (d : PlayerReadyDto)
    (room : RoomData) (player : PlayerData)
    (hroom : getEntry s.rooms d.roomID = some room)
    (hst : room.status = RoomStatus.WAITING)
    (hp : getEntry room.players sid = some player)
    (hid : player._id = d.playerID)
    (hmap : getEntry s.clientPlayerMap sid = some d.playerID)
    (hnr : player.status ≠ PlayerStatus.Ready)
    (hdb : env.readyDbOk = false) :
    (playerReady env s sid d).1 =
      { s with
        rooms :=
          setEntry s.rooms d.roomID
            ({ room with
                players := setEntry room.players sid
                  ({ player with status := PlayerStatus.Ready }) }) } := by
  unfold playerReady
  rw [hroom]
  dsimp only
  rw [if_neg (by simp [hst])]
  rw [hp]
  dsimp only
  rw [if_neg (by simp [hid, hmap])]
  rw [if_neg (by simp [hnr])]
  rw [hdb]
  rw [if_pos (by rfl)]

theorem playerChangeCar_update (env : Env) (s : GState) (sid : String)
    (d : PlayerChangeCarDto) (room : RoomData) (player : PlayerData)
    (hroom : getEntry s.rooms d.roomID = some room)
    (hst : room.status = RoomStatus.WAITING)
    (hp : getEntry room.players sid = some player)
    (hid : player._id = d.playerID)
    (hmap : getEntry s.clientPlayerMap sid = some d.playerID)
    (hneq : player.mainCar ≠ d.mainCar)
    (hown : player.ownerCars.any (fun c => c == d.mainCar) = true) :
    (playerChangeCar env s sid d).1 =
      { s with
        rooms :=
          setEntry s.rooms d.roomID
            ({ room with
                players := setEntry room.players sid
                  ({ player with mainCar := d.mainCar }) }) } := by
  unfold playerChangeCar
  rw [hroom]
  dsimp only
  rw [if_neg (by simp [hst])]
  rw [hp]
  dsimp only
  rw [if_neg (by simp [hid, hmap])]
  rw [if_neg (by simp [hneq])]
  rw [if_neg (by simp [hown])]
  cases hdb : env.carDbOk with
  | false => rw [if_pos (by rfl)]
  | true => rw [if_neg (by decide)]

theorem kickPlayer_db_fail (env : Env) (s : GState) (sid : String) (d : KickPlayerDto)
    (room : RoomData) (kicker target : PlayerData)
    (hne : (sid == d.targetSocketID) = false)
    (hroom : getEntry s.rooms d.roomID = some room)
    (hk : getEntry room.players sid = some kicker)
    (hhost : kicker.isHost = true)
    (ht : getEntry room.players d.targetSocketID = some target)
    (hdb : env.kickDbOk = false) :
    (kickPlayer env s sid d).1 =
      { s with
        rooms := setEntry s.rooms d.roomID
          ({ room with players := delEntry room.players d.targetSocketID })
        clientPlayerMap := delEntry s.clientPlayerMap d.targetSocketID } := by
  unfold kickPlayer
  rw [if_neg (by simp [hne])]
  rw [hroom]
  dsimp only
  rw [hk]
  dsimp only
  rw [if_neg (by simp [hhost])]
  rw [ht]
  dsimp only
  rw [hdb]
  rw [if_pos (by rfl)]

theorem waitingRoom_db_fail (env : Env) (s : GState) (sid : String) (d : WaitingRoomDto)
    (room : RoomData) (p : PlayerData)
    (hroom : getEntry s.rooms d.roomID = some room)
    (hp : getEntry room.players sid = some p)
    (hhost : p.isHost = true)
    (hdb : env.waitingDbOk = false) :
    updateStatusWaitingRoom env s sid d =
      ({ s with rooms := setEntry s.rooms d.roomID ({ room with status := RoomStatus.WAITING }) },
        []) := by
  unfold updateStatusWaitingRoom
  rw [hroom]
  dsimp only
  rw [hp]
  dsimp only
  rw [hhost]
  rw [if_neg (by decide)]
  rw [hdb]
  rw [if_pos (by rfl)]

theorem leaveRoom_db_fail (env : Env) (s : GState) (sid : String)
    (rme : String × RoomData) (pid : String)
    (hfind : s.rooms.find? (fun e => (getEntry e.2.players sid).isSome) = some rme)
    (hmap : getEntry s.clientPlayerMap sid = some pid)
    (hdb : env.leaveDbOk = false) :
    (leaveRoom env s sid).1 =
      { s with
        rooms := setEntry s.rooms rme.1 ({ rme.2 with players := delEntry rme.2.players sid })
        clientPlayerMap := delEntry s.clientPlayerMap sid } := by
  unfold leaveRoom
  rw [hfind]
  dsimp only
  rw [hmap]
  dsimp only
  rw [hdb]
  rw [if_pos (by rfl)]

/-- An environment in which the durable status update of the start path
and its compensating revert both fail. -/
def envStartFailBoth : Env :=
  { envAll with startDbOk := false, startRevertDbOk := false }

/-- An environment in which only the durable status update of the start
path fails; the compensating revert succeeds. -/
def envStartFailOnly : Env :=
  { envAll with startDbOk := false }

/-- C8 counterexample: when the durable status update fails and the
compensating durable revert fails too, the claimed re-broadcast and
gameStartFailed notification do not happen: the only output is the error
reply, although the in-memory status was indeed reverted to Waiting. -/
theorem C8_counterexample :
    startGuard readyRoom "h" = true ∧
    envStartFailBoth.startDbOk = false ∧
    (startGame envStartFailBoth readyState "h" { roomID := "4", map := 2 }).2 =
      [Out.errorTo "h" "Failed to start game."] ∧
    (∀ ids, Out.roomList ids ∉
      (startGame envStartFailBoth readyState "h" { roomID := "4", map := 2 }).2) ∧
    (∀ ts, Out.roomCast "4" "gameStartFailed" ts ∉
      (startGame envStartFailBoth readyState "h" { roomID := "4", map := 2 }).2) ∧
    (getEntry (startGame envStartFailBoth readyState "h" { roomID := "4", map := 2 }).1.rooms
        "4").map RoomData.status = some RoomStatus.WAITING := by
  refine ⟨by decide, by decide, by decide, ?_, ?_, by decide⟩
  · intro ids h
    have : (startGame envStartFailBoth readyState "h" { roomID := "4", map := 2 }).2 =
        [Out.errorTo "h" "Failed to start game."] := by decide
    rw [this] at h
    simp at h
  · intro ts h
    have : (startGame envStartFailBoth readyState "h" { roomID := "4", map := 2 }).2 =
        [Out.errorTo "h" "Failed to start game."] := by decide
    rw [this] at h
    simp at h

/-- C8 (amended): when the durable status update of the start path fails
after the in-memory status was set to Running, startGame reverts the
room's status to Waiting and every session's readiness to Ready in memory
and reports the failure to the sender; the room-list re-broadcast and the
gameStartFailed notification to the room additionally require the
compensating durable update to succeed.  Unlike this path, the other
handlers keep their already-applied in-memory change when their durable
call fails: shown for playerReady (readiness stays Ready), playerChangeCar
(selection stays changed), kickPlayer (target stays removed),
updateStatusWaitingRoom (status stays Waiting) and leaveRoom (session
stays removed). -/
theorem C8_startGame_revert_on_db_failure (env : Env) (s : GState) (sid : String)
    (d : StartGameDto) (room : RoomData)
    (hroom : getEntry s.rooms d.roomID = some room)
    (hg : startGuard room sid = true)
    (hdb : env.startDbOk = false)
    (hc : s.clients.contains sid = true) :
    (∃ room', getEntry (startGame env s sid d).1.rooms d.roomID = some room' ∧
      room'.status = RoomStatus.WAITING ∧
      room'.players.map Prod.fst = room.players.map Prod.fst ∧
      ∀ pr ∈ room'.players, pr.2.status = PlayerStatus.Ready) ∧
    Out.errorTo sid "Failed to start game." ∈ (startGame env s sid d).2 ∧
    (env.startRevertDbOk = true →
      (∃ ids, Out.roomList ids ∈ (startGame env s sid d).2) ∧
      (room.players.map Prod.fst ≠ [] →
        ∃ ts, Out.roomCast d.roomID "gameStartFailed" ts ∈ (startGame env s sid d).2)) ∧
    (∀ (env' : Env) (s' : GState) (sid' : String) (d' : PlayerReadyDto) room' player,
      getEntry s'.rooms d'.roomID = some room' → room'.status = RoomStatus.WAITING →
      getEntry room'.players sid' = some player → player._id = d'.playerID →
      getEntry s'.clientPlayerMap sid' = some d'.playerID →
      player.status ≠ PlayerStatus.Ready → env'.readyDbOk = false →
      ∃ room'', getEntry (playerReady env' s' sid' d').1.rooms d'.roomID = some room'' ∧
        getEntry room''.players sid' =
          some { player with status := PlayerStatus.Ready }) ∧
    (∀ (env' : Env) (s' : GState) (sid' : String) (d' : PlayerChangeCarDto) room' player,
      getEntry s'.rooms d'.roomID = some room' → room'.status = RoomStatus.WAITING →
      getEntry room'.players sid' = some player → player._id = d'.playerID →
      getEntry s'.clientPlayerMap sid' = some d'.playerID →
      player.mainCar ≠ d'.mainCar →
      player.ownerCars.any (fun c => c == d'.mainCar) = true → env'.carDbOk = false →
      ∃ room'', getEntry (playerChangeCar env' s' sid' d').1.rooms d'.roomID = some room'' ∧
        getEntry room''.players sid' = some { player with mainCar := d'.mainCar }) ∧
    (∀ (env' : Env) (s' : GState) (sid' : String) (d' : KickPlayerDto) room' kicker target,
      (sid' == d'.targetSocketID) = false →
      getEntry s'.rooms d'.roomID = some room' →
      getEntry room'.players sid' = some kicker → kicker.isHost = true →
      getEntry room'.players d'.targetSocketID = some target → env'.kickDbOk = false →
      ∃ room'', getEntry (kickPlayer env' s' sid' d').1.rooms d'.roomID = some room'' ∧
        getEntry room''.players d'.targetSocketID = none) ∧
    (∀ (env' : Env) (s' : GState) (sid' : String) (d' : WaitingRoomDto) room' p,
      getEntry s'.rooms d'.roomID = some room' →
      getEntry room'.players sid' = some p → p.isHost = true → env'.waitingDbOk = false →
      (getEntry (updateStatusWaitingRoom env' s' sid' d').1.rooms d'.roomID).map
          RoomData.status = some RoomStatus.WAITING) ∧
    (∀ (env' : Env) (s' : GState) (sid' : String) (rme : String × RoomData) (pid : String),
      s'.rooms.find? (fun e => (getEntry e.2.players sid').isSome) = some rme →
      getEntry s'.clientPlayerMap sid' = some pid → env'.leaveDbOk = false →
      ∃ room'', getEntry (leaveRoom env' s' sid').1.rooms rme.1 = some room'' ∧
        getEntry room''.players sid' = none) := by
  obtain ⟨hstate, houts0, houts1⟩ := startGame_db_fail env s sid d room hroom hdb hg
  have hget : getEntry (startGame env s sid d).1.rooms d.roomID = some (revertedRoom room) := by
    rw [hstate]
    exact getEntry_setEntry_self _ _ _
  refine ⟨⟨revertedRoom room, hget, rfl, by simp [revertedRoom, Function.comp], ?_⟩,
    ?_, ?_, ?_, ?_, ?_, ?_, ?_⟩
  · intro pr hpr
    unfold revertedRoom at hpr
    simp only [List.mem_map] at hpr
    obtain ⟨pl, -, hpl⟩ := hpr
    rw [← hpl]
  · cases hrev : env.startRevertDbOk with
    | false =>
      rw [houts0 hrev]
      simp [sendErr, hstate, (by simpa using hc : sid ∈ s.clients)]
    | true =>
      rw [houts1 hrev]
      simp [sendErr, hstate, (by simpa using hc : sid ∈ s.clients)]
  · intro hrev
    rw [houts1 hrev]
    constructor
    · refine ⟨getPublicRoomList { s with rooms := setEntry s.rooms d.roomID (revertedRoom room) }, ?_⟩
      have hcl : ({ s with rooms := setEntry s.rooms d.roomID (revertedRoom room) } :
          GState).clients.isEmpty = false := by
        cases hcls : s.clients with
        | nil => rw [hcls] at hc; simp [List.contains] at hc
        | cons a l => simp [List.isEmpty]
      simp [broadcastRoomList, hcl]
    · intro hne
      have hpl : (revertedRoom room).players.isEmpty = false := by
        unfold revertedRoom
        cases hpls : room.players with
        | nil => rw [hpls] at hne; simp at hne
        | cons a l => simp [List.isEmpty]
      refine ⟨roomRecipients { s with rooms := setEntry s.rooms d.roomID (revertedRoom room) }
        (revertedRoom room) none, ?_⟩
      simp [broadcastToRoom, getEntry_setEntry_self, hpl]
  · intro env' s' sid' d' room' player h1 h2 h3 h4 h5 h6 h7
    rw [playerReady_db_fail env' s' sid' d' room' player h1 h2 h3 h4 h5 h6 h7]
    exact ⟨_, getEntry_setEntry_self _ _ _, getEntry_setEntry_self _ _ _⟩
  · intro env' s' sid' d' room' player h1 h2 h3 h4 h5 h6 h7 h8
    rw [playerChangeCar_update env' s' sid' d' room' player h1 h2 h3 h4 h5 h6 h7]
    exact ⟨_, getEntry_setEntry_self _ _ _, getEntry_setEntry_self _ _ _⟩
  · intro env' s' sid' d' room' kicker target h1 h2 h3 h4 h5 h6
    rw [kickPlayer_db_fail env' s' sid' d' room' kicker target h1 h2 h3 h4 h5 h6]
    exact ⟨_, getEntry_setEntry_self _ _ _, getEntry_delEntry_self _ _⟩
  · intro env' s' sid' d' room' p h1 h2 h3 h4
    rw [waitingRoom_db_fail env' s' sid' d' room' p h1 h2 h3 h4]
    dsimp only
    rw [getEntry_setEntry_self]
    rfl
  · intro env' s' sid' rme pid h1 h2 h3
    rw [leaveRoom_db_fail env' s' sid' rme pid h1 h2 h3]
    exact ⟨_, getEntry_setEntry_self _ _ _, getEntry_delEntry_self _ _⟩

/-- Witness for C8: on a concrete all-Ready room with the durable start
update failing, the status is reverted to Waiting, readiness to Ready, and
the sender is told the start failed. -/
theorem C8_witness :
    (∃ room', getEntry (startGame envStartFailOnly readyState "h"
        { roomID := "4", map := 2 }).1.rooms "4" = some room' ∧
      room'.status = RoomStatus.WAITING ∧
      room'.players.map Prod.fst = readyRoom.players.map Prod.fst ∧
      ∀ pr ∈ room'.players, pr.2.status = PlayerStatus.Ready) ∧
    Out.errorTo "h" "Failed to start game." ∈
      (startGame envStartFailOnly readyState "h" { roomID := "4", map := 2 }).2 :=
  let h := C8_startGame_revert_on_db_failure envStartFailOnly readyState "h"
    { roomID := "4", map := 2 } readyRoom (by decide) (by decide) (by decide) (by decide)
  ⟨h.1, h.2.1⟩

theorem createRoom_success (env : Env) (s : GState) (sid : String) (d : CreateRoomDto)
    (p : PlayerInfo)
    (hp : env.getPlayerWithId d.playerId = some p)
    (hnone : s.rooms.find? (fun e => e.2.players.any (fun pl => pl.2._id == d.playerId)) = none)
    (hdb : env.createDbOk = true) :
    (createRoom env s sid d).1 =
      { s with
        rooms :=
          setEntry s.rooms (toString (s.seq + 1))
            ({ id := toString (s.seq + 1), value := d.value,
               password := some (d.password.getD ""), status := RoomStatus.WAITING,
               players :=
                 [(sid,
                   { _id := p._id, socketId := sid, telegramId := p.telegramId,
                     playerName := p.playerName, mainCar := p.mainCar,
                     ownerCars := p.ownerCars, isHost := true, position := Vec3.zero,
                     rotation := Vec3.zero, speed := 0, status := PlayerStatus.Ready,
                     distance := 0, isLoaded := false })] })
        clientPlayerMap := setEntry s.clientPlayerMap sid p._id
        seq := s.seq + 1 } := by
  unfold createRoom
  rw [hp]
  dsimp only
  rw [hnone]
  dsimp only
  rw [hdb]
  rw [if_neg (by decide)]

theorem joinRoom_success (env : Env) (s : GState) (sid : String) (d : JoinRoomDto)
    (room : RoomData) (player : PlayerInfo)
    (hroom : getEntry s.rooms d.roomID = some room)
    (hst : room.status = RoomStatus.WAITING)
    (hpw : (passTruthy room.password && room.password != d.password) = false)
    (hp : env.getPlayerWithId d.playerId = some player)
    (hcap : ¬room.players.length ≥ 5)
    (hnone : s.rooms.find? (fun e => e.2.players.any (fun pl => pl.2._id == d.playerId)) = none)
    (hdb : env.joinDbOk = true) :
    (joinRoom env s sid d).1 =
      { s with
        rooms :=
          setEntry s.rooms d.roomID
            ({ room with
                players :=
                  setEntry room.players sid
                    { _id := player._id, socketId := sid, telegramId := player.telegramId,
                      playerName := player.playerName, mainCar := player.mainCar,
                      ownerCars := player.ownerCars, isHost := false, position := Vec3.zero,
                      rotation := Vec3.zero, speed := 0, status := PlayerStatus.Waiting,
                      distance := 0, isLoaded := false } })
        clientPlayerMap := setEntry s.clientPlayerMap sid player._id } := by
  unfold joinRoom
  rw [hroom]
  dsimp only
  rw [if_neg (by simp [hst])]
  rw [if_neg (by simp [hpw])]
  rw [hp]
  dsimp only
  rw [if_neg hcap]
  rw [hnone]
  dsimp only
  rw [hdb]
  rw [if_neg (by decide)]

/-- C10: a session created by createRoom (the host) starts in readiness
Ready, a session created by joinRoom starts in readiness Waiting, and on a
room holding only its host, startGame's all-sessions-Ready guard passes
with no playerReady processed: the room created by createRoom is started
to Running immediately. -/
theorem C10_initial_readiness (env : Env) (s : GState) (sid : String) (d : CreateRoomDto)
    (p : PlayerInfo) (m : Int)
    (hp : env.getPlayerWithId d.playerId = some p)
    (hnone : s.rooms.find? (fun e => e.2.players.any (fun pl => pl.2._id == d.playerId)) = none)
    (hdbC : env.createDbOk = true)
    (hdbS : env.startDbOk = true) :
    (∃ room', getEntry (createRoom env s sid d).1.rooms (toString (s.seq + 1)) = some room' ∧
      room'.status = RoomStatus.WAITING ∧
      ∃ pl, room'.players = [(sid, pl)] ∧ pl.isHost = true ∧
        pl.status = PlayerStatus.Ready) ∧
    ((getEntry (startGame env (createRoom env s sid d).1 sid
        { roomID := toString (s.seq + 1), map := m }).1.rooms (toString (s.seq + 1))).map
      RoomData.status = some RoomStatus.RUNNING) ∧
    (∀ (env' : Env) (s' : GState) (sid' : String) (d' : JoinRoomDto) room' player',
      getEntry s'.rooms d'.roomID = some room' →
      room'.status = RoomStatus.WAITING →
      (passTruthy room'.password && room'.password != d'.password) = false →
      env'.getPlayerWithId d'.playerId = some player' →
      ¬room'.players.length ≥ 5 →
      s'.rooms.find? (fun e => e.2.players.any (fun pl => pl.2._id == d'.playerId)) = none →
      env'.joinDbOk = true →
      ∃ room'' pl, getEntry (joinRoom env' s' sid' d').1.rooms d'.roomID = some room'' ∧
        getEntry room''.players sid' = some pl ∧ pl.isHost = false ∧
        pl.status = PlayerStatus.Waiting) := by
  have hcreate := createRoom_success env s sid d p hp hnone hdbC
  have hroomNew : getEntry (createRoom env s sid d).1.rooms (toString (s.seq + 1)) =
      some { id := toString (s.seq + 1), value := d.value,
             password := some (d.password.getD ""), status := RoomStatus.WAITING,
             players :=
               [(sid,
                 { _id := p._id, socketId := sid, telegramId := p.telegramId,
                   playerName := p.playerName, mainCar := p.mainCar,
                   ownerCars := p.ownerCars, isHost := true, position := Vec3.zero,
                   rotation := Vec3.zero, speed := 0, status := PlayerStatus.Ready,
                   distance := 0, isLoaded := false })] } := by
    rw [hcreate]
    exact getEntry_setEntry_self _ _ _
  refine ⟨⟨_, hroomNew, rfl, _, rfl, rfl, rfl⟩, ?_, ?_⟩
  · rw [startGame_guard_true env (createRoom env s sid d).1 sid
      { roomID := toString (s.seq + 1), map := m } _ hroomNew hdbS
      (by simp [startGuard, getEntry, List.find?])]
    dsimp only
    rw [getEntry_setEntry_self]
    rfl
  · intro env' s' sid' d' room' player' h1 h2 h3 h4 h5 h6 h7
    rw [joinRoom_success env' s' sid' d' room' player' h1 h2 h3 h4 h5 h6 h7]
    exact ⟨_, _, getEntry_setEntry_self _ _ _, getEntry_setEntry_self _ _ _, rfl, rfl⟩

/-- Witness for C10 at a concrete empty directory. -/
theorem C10_witness :
    (∃ room', getEntry (createRoom envAll
        { clients := ["h"], clientPlayerMap := [], rooms := [], seq := 0 } "h"
        { value := 50, password := none, playerId := "P1" }).1.rooms "1" = some room' ∧
      room'.status = RoomStatus.WAITING ∧
      ∃ pl, room'.players = [("h", pl)] ∧ pl.isHost = true ∧
        pl.status = PlayerStatus.Ready) ∧
    ((getEntry (startGame envAll (createRoom envAll
        { clients := ["h"], clientPlayerMap := [], rooms := [], seq := 0 } "h"
        { value := 50, password := none, playerId := "P1" }).1 "h"
        { roomID := "1", map := 3 }).1.rooms "1").map
      RoomData.status = some RoomStatus.RUNNING) :=
  let h := C10_initial_readiness envAll
    { clients := ["h"], clientPlayerMap := [], rooms := [], seq := 0 } "h"
    { value := 50, password := none, playerId := "P1" } _ 3 (by rfl) (by decide) (by decide)
    (by decide)
  ⟨h.1, h.2.1⟩

theorem playerChangeCar_cases (env : Env) (s : GState) (sid : String)
    (d : PlayerChangeCarDto) :
    (playerChangeCar env s sid d).1 = s ∨
    (∃ room player, getEntry s.rooms d.roomID = some room ∧
      room.status = RoomStatus.WAITING ∧
      getEntry room.players sid = some player ∧
      player._id = d.playerID ∧
      getEntry s.clientPlayerMap sid = some d.playerID ∧
      player.mainCar ≠ d.mainCar ∧
      player.ownerCars.any (fun c => c == d.mainCar) = true ∧
      (playerChangeCar env s sid d).1 =
        { s with
          rooms :=
            setEntry s.rooms d.roomID
              ({ room with
                  players := setEntry room.players sid
                    ({ player with mainCar := d.mainCar }) }) }) := by
  cases hroom : getEntry s.rooms d.roomID with
  | none =>
    left
    unfold playerChangeCar
    rw [hroom]
  | some room =>
    by_cases hst : room.status = RoomStatus.WAITING
    · cases hp : getEntry room.players sid with
      | none =>
        left
        unfold playerChangeCar
        rw [hroom]
        dsimp only
        rw [if_neg (by simp [hst]), hp]
      | some player =>
        by_cases hids : player._id = d.playerID ∧ getEntry s.clientPlayerMap sid = some d.playerID
        · by_cases hred : player.mainCar = d.mainCar
          · left
            unfold playerChangeCar
            rw [hroom]
            dsimp only
            rw [if_neg (by simp [hst]), hp]
            dsimp only
            rw [if_neg (by simp [hids.1, hids.2]), if_pos (by simp [hred])]
          · cases hown : player.ownerCars.any (fun c => c == d.mainCar) with
            | false =>
              left
              unfold playerChangeCar
              rw [hroom]
              dsimp only
              rw [if_neg (by simp [hst]), hp]
              dsimp only
              rw [if_neg (by simp [hids.1, hids.2]), if_neg (by simp [hred]),
                if_pos (by simp [hown])]
            | true =>
              right
              exact ⟨room, player, rfl, hst, hp, hids.1, hids.2, hred, hown,
                playerChangeCar_update env s sid d room player hroom hst hp hids.1 hids.2
                  hred hown⟩
        · left
          unfold playerChangeCar
          rw [hroom]
          dsimp only
          rw [if_neg (by simp [hst]), hp]
          dsimp only
          rw [if_pos ?_]
          rcases not_and_or.mp hids with h | h <;> simp [h]
    · left
      unfold playerChangeCar
      rw [hroom]
      dsimp only
      rw [if_pos (by simp [hst])]

/-- C7: playerChangeCar updates the selection only when the room is in
Waiting status and the requested car id is in the session's owned set; a
room not in Waiting status, or an unowned car, is rejected with an error
and no state change; a redundant request for the already-selected car is a
silent no-op; and the successful update sets exactly the selection. -/
theorem C7_playerChangeCar_guards (env : Env) (s : GState) (sid : String)
    (d : PlayerChangeCarDto) (room : RoomData) (player : PlayerData)
    (hroom : getEntry s.rooms d.roomID = some room)
    (hp : getEntry room.players sid = some player)
    (hc : s.clients.contains sid = true) :
    (∀ room' player', getEntry (playerChangeCar env s sid d).1.rooms d.roomID = some room' →
      getEntry room'.players sid = some player' →
      player'.mainCar ≠ player.mainCar →
      room.status = RoomStatus.WAITING ∧
      player.ownerCars.any (fun c => c == d.mainCar) = true ∧
      player'.mainCar = d.mainCar) ∧
    (room.status ≠ RoomStatus.WAITING →
      playerChangeCar env s sid d = (s, [Out.errorTo sid "Cannot change car now."])) ∧
    (room.status = RoomStatus.WAITING → player._id = d.playerID →
      getEntry s.clientPlayerMap sid = some d.playerID →
      player.mainCar ≠ d.mainCar →
      player.ownerCars.any (fun c => c == d.mainCar) = false →
      playerChangeCar env s sid d = (s, [Out.errorTo sid "You do not own this car."])) ∧
    (room.status = RoomStatus.WAITING → player._id = d.playerID →
      getEntry s.clientPlayerMap sid = some d.playerID →
      player.mainCar = d.mainCar →
      playerChangeCar env s sid d = (s, [])) ∧
    (room.status = RoomStatus.WAITING → player._id = d.playerID →
      getEntry s.clientPlayerMap sid = some d.playerID →
      player.mainCar ≠ d.mainCar →
      player.ownerCars.any (fun c => c == d.mainCar) = true →
      ∃ room', getEntry (playerChangeCar env s sid d).1.rooms d.roomID = some room' ∧
        getEntry room'.players sid = some ({ player with mainCar := d.mainCar })) := by
  have hcm : sid ∈ s.clients := by simpa using hc
  refine ⟨?_, ?_, ?_, ?_, ?_⟩
  · intro room' player' hroom' hp' hneq
    rcases playerChangeCar_cases env s sid d with hsame | hupd
    · rw [hsame] at hroom'
      rw [hroom] at hroom'
      obtain rfl := Option.some.inj hroom'
      rw [hp] at hp'
      obtain rfl := Option.some.inj hp'
      exact absurd rfl hneq
    · obtain ⟨room0, player0, hroom0, hst0, hp0, -, -, -, hown0, hres0⟩ := hupd
      rw [hroom] at hroom0
      obtain rfl := Option.some.inj hroom0
      rw [hp] at hp0
      obtain rfl := Option.some.inj hp0
      rw [hres0] at hroom'
      rw [getEntry_setEntry_self] at hroom'
      obtain rfl := Option.some.inj hroom'
      rw [getEntry_setEntry_self] at hp'
      obtain rfl := Option.some.inj hp'
      exact ⟨hst0, hown0, rfl⟩
  · intro hst
    unfold playerChangeCar
    rw [hroom]
    dsimp only
    rw [if_pos (by simp [hst])]
    simp [sendErr, hcm]
  · intro hst hid hmap hneq hown
    unfold playerChangeCar
    rw [hroom]
    dsimp only
    rw [if_neg (by simp [hst]), hp]
    dsimp only
    rw [if_neg (by simp [hid, hmap]), if_neg (by simp [hneq]), if_pos (by simp [hown])]
    simp [sendErr, hcm]
  · intro hst hid hmap hred
    unfold playerChangeCar
    rw [hroom]
    dsimp only
    rw [if_neg (by simp [hst]), hp]
    dsimp only
    rw [if_neg (by simp [hid, hmap]), if_pos (by simp [hred])]
  · intro hst hid hmap hneq hown
    rw [playerChangeCar_update env s sid d room player hroom hst hp hid hmap hneq hown]
    exact ⟨_, getEntry_setEntry_self _ _ _, getEntry_setEntry_self _ _ _⟩

/-- A Waiting-room state for the C7 witness: host h owns cars 1 and 2 and
currently has car 1 selected. -/
def carState : GState :=
  { clients := ["h"]
    clientPlayerMap := [("h", "P1")]
    rooms := [("4",
      { id := "4", value := 10, password := some "", status := RoomStatus.WAITING,
        players := [("h", hostSession)] })]
    seq := 4 }

/-- Witness for C7: changing to owned car 2 in a concrete Waiting room
updates the selection. -/
theorem C7_witness :
    (carState.rooms.find? (fun e => e.1 == "4")).isSome = true ∧
    (∃ room', getEntry (playerChangeCar envAll carState "h"
        { roomID := "4", playerID := "P1", mainCar := 2 }).1.rooms "4" = some room' ∧
      getEntry room'.players "h" = some ({ hostSession with mainCar := 2 })) :=
  let h := C7_playerChangeCar_guards envAll carState "h"
    { roomID := "4", playerID := "P1", mainCar := 2 }
    { id := "4", value := 10, password := some "", status := RoomStatus.WAITING,
      players := [("h", hostSession)] } hostSession (by decide) (by decide) (by decide)
  ⟨by decide,
    h.2.2.2.2 (by decide) (by decide) (by decide) (by decide) (by decide)⟩

theorem mem_setEntry {α : Type} (m : List (String × α)) (k : String) (v : α)
    (e : String × α) (h : e ∈ setEntry m k v) : e = (k, v) ∨ e ∈ m := by
  induction m with
  | nil => simpa [setEntry] using h
  | cons a rest ih =>
    rw [setEntry_cons] at h
    by_cases ha : a.1 = k
    · rw [if_pos ha] at h
      rcases List.mem_cons.mp h with h | h
      · exact Or.inl h
      · exact Or.inr (List.mem_cons_of_mem a h)
    · rw [if_neg ha] at h
      rcases List.mem_cons.mp h with h | h
      · exact Or.inr (h ▸ List.mem_cons_self a rest)
      · rcases ih h with h | h
        · exact Or.inl h
        · exact Or.inr (List.mem_cons_of_mem a h)

theorem roomList_not_mem_sendToClient (s : GState) (sid ev : String) (ids : List String) :
    Out.roomList ids ∉ sendToClient s sid ev := by
  unfold sendToClient
  split <;> simp

theorem roomList_not_mem_sendErr (s : GState) (sid msg : String) (ids : List String) :
    Out.roomList ids ∉ sendErr s sid msg := by
  unfold sendErr
  split <;> simp

theorem roomList_not_mem_broadcastToRoom (s : GState) (R ev : String) (excl : Option String)
    (ids : List String) : Out.roomList ids ∉ broadcastToRoom s R ev excl := by
  unfold broadcastToRoom
  split
  · simp
  · split <;> simp

theorem roomList_mem_broadcastRoomList (s : GState) (ids : List String)
    (h : Out.roomList ids ∈ broadcastRoomList s) : ids = getPublicRoomList s := by
  unfold broadcastRoomList at h
  split at h
  · simp at h
  · rcases List.mem_singleton.mp h with h
    exact (Out.roomList.inj h)

theorem getPublicRoomList_not_mem (s : GState) (R : String)
    (h : ∀ e ∈ s.rooms, e.2.id ≠ R) : R ∉ getPublicRoomList s := by
  unfold getPublicRoomList
  intro hmem
  simp only [List.mem_map, List.mem_filter] at hmem
  obtain ⟨r, ⟨⟨e, he, rfl⟩, -⟩, hid⟩ := hmem
  exact h e he hid

theorem mem_keys_delEntry {α : Type} (m : List (String × α)) (k sid : String)
    (hk : k ∈ m.map Prod.fst) (hne : k ≠ sid) : k ∈ (delEntry m sid).map Prod.fst := by
  simp only [List.mem_map] at hk ⊢
  obtain ⟨e, he, rfl⟩ := hk
  exact ⟨e, List.mem_filter.mpr ⟨he, by simpa using hne⟩, rfl⟩

theorem isEmpty_false_of_mem_keys {α : Type} (m : List (String × α)) (k : String)
    (h : k ∈ m.map Prod.fst) : m.isEmpty = false := by
  cases m with
  | nil => simp at h
  | cons a rest => simp [List.isEmpty]

theorem mem_roomRecipients (s : GState) (room : RoomData) (k : String) (excl : Option String)
    (hk : k ∈ room.players.map Prod.fst)
    (hcont : s.clients.contains k = true)
    (hexcl : (some k != excl) = true) : k ∈ roomRecipients s room excl := by
  unfold roomRecipients
  refine List.mem_filter.mpr ⟨?_, by simp [hexcl, (by simpa using hcont : k ∈ s.clients)]⟩
  simpa using hk

theorem leaveRoom_host (env : Env) (s : GState) (sid : String) (rme : String × RoomData)
    (pid : String) (p : PlayerData)
    (hfind : s.rooms.find? (fun e => (getEntry e.2.players sid).isSome) = some rme)
    (hmap : getEntry s.clientPlayerMap sid = some pid)
    (hp : getEntry rme.2.players sid = some p)
    (hhost : p.isHost = true)
    (hdb1 : env.leaveDbOk = true)
    (hdb2 : env.leaveDeleteDbOk = true) :
    leaveRoom env s sid =
      ({ s with
          rooms := delEntry (setEntry s.rooms rme.1
            ({ rme.2 with players := delEntry rme.2.players sid })) rme.1
          clientPlayerMap := delEntry s.clientPlayerMap sid },
        sendToClient s sid "leftRoom" ++
        broadcastToRoom
          { s with
            rooms := setEntry s.rooms rme.1
              ({ rme.2 with players := delEntry rme.2.players sid })
            clientPlayerMap := delEntry s.clientPlayerMap sid }
          rme.1 "roomClosed" none ++
        [Out.dbDeleteRoom rme.1] ++
        broadcastRoomList
          { s with
            rooms := delEntry (setEntry s.rooms rme.1
              ({ rme.2 with players := delEntry rme.2.players sid })) rme.1
            clientPlayerMap := delEntry s.clientPlayerMap sid }) := by
  unfold leaveRoom
  rw [hfind]
  dsimp only
  rw [hp]
  dsimp only
  rw [hmap]
  dsimp only
  rw [hdb1]
  rw [if_neg (by decide)]
  rw [hhost]
  rw [if_pos (by rfl)]
  rw [hdb2]
  rw [if_neg (by decide)]

theorem handleDisconnect_host (env : Env) (s : GState) (sid : String)
    (rme : String × RoomData) (p : PlayerData)
    (hc : s.clients.contains sid = true)
    (hfind : s.rooms.find? (fun e => (getEntry e.2.players sid).isSome) = some rme)
    (hp : getEntry rme.2.players sid = some p)
    (hhost : p.isHost = true) :
    handleDisconnect env s sid =
      ({ s with
          rooms := delEntry (setEntry s.rooms rme.1
            ({ rme.2 with players := delEntry rme.2.players sid })) rme.1
          clients := s.clients.filter (fun c => c != sid)
          clientPlayerMap := delEntry s.clientPlayerMap sid },
        broadcastToRoom
          { s with
            rooms := setEntry s.rooms rme.1
              ({ rme.2 with players := delEntry rme.2.players sid }) }
          rme.1 "roomClosed" none ++
        (if env.discDeleteDbOk then [Out.dbDeleteRoom rme.1] else []) ++
        broadcastRoomList
          { s with
            rooms := delEntry (setEntry s.rooms rme.1
              ({ rme.2 with players := delEntry rme.2.players sid })) rme.1 }) := by
  unfold handleDisconnect
  rw [if_neg (by rw [hc]; decide)]
  rw [hfind]
  dsimp only
  rw [hp]
  dsimp only
  rw [hhost]
  rw [if_pos (by rfl)]

theorem teardown_roomList_not_mem (s : GState) (R : String) (room1 : RoomData)
    (hcoh : ∀ e ∈ s.rooms, e.2.id = e.1) (s' : GState)
    (hrooms : s'.rooms = delEntry (setEntry s.rooms R room1) R) :
    R ∉ getPublicRoomList s' := by
  apply getPublicRoomList_not_mem
  intro e he
  rw [hrooms] at he
  have hmf := List.mem_filter.mp he
  have hne : e.1 ≠ R := by simpa using hmf.2
  rcases mem_setEntry _ _ _ _ hmf.1 with heq | hmem0
  · exact absurd (by rw [heq]) hne
  · rw [hcoh e hmem0]
    exact hne

/-- C4: when the connection holding the host session leaves (leaveRoom) or
disconnects, the room is removed from the in-memory directory, its durable
record is deleted, every remaining registered session is notified by the
roomClosed broadcast, and the room's id is absent from every
directory-wide roomListUpdated broadcast the handler emits (in particular
the one it ends with).  The leave path additionally requires the two
durable calls of that path to succeed, since a thrown durable failure
aborts the teardown midway. -/
theorem C4_host_teardown (env : Env) (s : GState) (sid R : String) (room : RoomData)
    (p : PlayerData) (pid : String)
    (hfind : s.rooms.find? (fun e => (getEntry e.2.players sid).isSome) = some (R, room))
    (hp : getEntry room.players sid = some p)
    (hhost : p.isHost = true)
    (hcoh : ∀ e ∈ s.rooms, e.2.id = e.1) :
    (getEntry s.clientPlayerMap sid = some pid → env.leaveDbOk = true →
      env.leaveDeleteDbOk = true →
      getEntry (leaveRoom env s sid).1.rooms R = none ∧
      Out.dbDeleteRoom R ∈ (leaveRoom env s sid).2 ∧
      (∀ k, k ∈ room.players.map Prod.fst → k ≠ sid → s.clients.contains k = true →
        ∃ ts, Out.roomCast R "roomClosed" ts ∈ (leaveRoom env s sid).2 ∧ k ∈ ts) ∧
      (∀ ids, Out.roomList ids ∈ (leaveRoom env s sid).2 → R ∉ ids)) ∧
    (s.clients.contains sid = true → env.discDeleteDbOk = true →
      getEntry (handleDisconnect env s sid).1.rooms R = none ∧
      Out.dbDeleteRoom R ∈ (handleDisconnect env s sid).2 ∧
      (∀ k, k ∈ room.players.map Prod.fst → k ≠ sid → s.clients.contains k = true →
        ∃ ts, Out.roomCast R "roomClosed" ts ∈ (handleDisconnect env s sid).2 ∧ k ∈ ts) ∧
      (∀ ids, Out.roomList ids ∈ (handleDisconnect env s sid).2 → R ∉ ids)) := by
  constructor
  · intro hmap hdb1 hdb2
    rw [leaveRoom_host env s sid (R, room) pid p hfind hmap hp hhost hdb1 hdb2]
    dsimp only
    refine ⟨getEntry_delEntry_self _ _, by simp, ?_, ?_⟩
    · intro k hk hkne hkcont
      have hk1 : k ∈ (delEntry room.players sid).map Prod.fst :=
        mem_keys_delEntry room.players k sid hk hkne
      have hne1 : (delEntry room.players sid).isEmpty = false :=
        isEmpty_false_of_mem_keys _ k hk1
      refine ⟨_, ?_,
        mem_roomRecipients
          { s with
            rooms := setEntry s.rooms R ({ room with players := delEntry room.players sid })
            clientPlayerMap := delEntry s.clientPlayerMap sid }
          ({ room with players := delEntry room.players sid }) k none
          hk1 hkcont rfl⟩
      have houtClosed : broadcastToRoom
          { s with
            rooms := setEntry s.rooms R ({ room with players := delEntry room.players sid })
            clientPlayerMap := delEntry s.clientPlayerMap sid }
          R "roomClosed" none =
          [Out.roomCast R "roomClosed"
            (roomRecipients
              { s with
                rooms := setEntry s.rooms R ({ room with players := delEntry room.players sid })
                clientPlayerMap := delEntry s.clientPlayerMap sid }
              ({ room with players := delEntry room.players sid }) none)] := by
        unfold broadcastToRoom
        rw [getEntry_setEntry_self]
        dsimp only
        rw [if_neg (by simp [hne1])]
      rw [houtClosed]
      simp
    · intro ids hmem
      simp only [List.mem_append] at hmem
      rcases hmem with ((hA | hB) | hC) | hD
      · exact absurd hA (roomList_not_mem_sendToClient _ _ _ _)
      · exact absurd hB (roomList_not_mem_broadcastToRoom _ _ _ _ _)
      · simp at hC
      · rw [roomList_mem_broadcastRoomList _ _ hD]
        exact teardown_roomList_not_mem s R
          ({ room with players := delEntry room.players sid }) hcoh _ rfl
  · intro hc hdb3
    rw [handleDisconnect_host env s sid (R, room) p hc hfind hp hhost]
    dsimp only
    refine ⟨getEntry_delEntry_self _ _, by simp [hdb3], ?_, ?_⟩
    · intro k hk hkne hkcont
      have hk1 : k ∈ (delEntry room.players sid).map Prod.fst :=
        mem_keys_delEntry room.players k sid hk hkne
      have hne1 : (delEntry room.players sid).isEmpty = false :=
        isEmpty_false_of_mem_keys _ k hk1
      refine ⟨_, ?_,
        mem_roomRecipients
          { s with
            rooms := setEntry s.rooms R ({ room with players := delEntry room.players sid }) }
          ({ room with players := delEntry room.players sid }) k none
          hk1 hkcont rfl⟩
      have houtClosed : broadcastToRoom
          { s with
            rooms := setEntry s.rooms R ({ room with players := delEntry room.players sid }) }
          R "roomClosed" none =
          [Out.roomCast R "roomClosed"
            (roomRecipients
              { s with
                rooms := setEntry s.rooms R ({ room with players := delEntry room.players sid }) }
              ({ room with players := delEntry room.players sid }) none)] := by
        unfold broadcastToRoom
        rw [getEntry_setEntry_self]
        dsimp only
        rw [if_neg (by simp [hne1])]
      rw [houtClosed]
      simp
    · intro ids hmem
      simp only [List.mem_append] at hmem
      rcases hmem with (hB | hC) | hD
      · exact absurd hB (roomList_not_mem_broadcastToRoom _ _ _ _ _)
      · split at hC <;> simp at hC
      · rw [roomList_mem_broadcastRoomList _ _ hD]
        exact teardown_roomList_not_mem s R
          ({ room with players := delEntry room.players sid }) hcoh _ rfl

/-- A Waiting room with host h and guest g, both registered. -/
def twoRoom : RoomData :=
  { id := "9", value := 5, password := some "", status := RoomStatus.WAITING,
    players := [("h", hostSession), ("g", guestSession)] }

/-- The directory state holding twoRoom. -/
def twoState : GState :=
  { clients := ["h", "g"]
    clientPlayerMap := [("h", "P1"), ("g", "P2")]
    rooms := [("9", twoRoom)]
    seq := 9 }

/-- Witness for C4 on the leave path: the host leaving room 9 removes it,
deletes the durable record, notifies the remaining guest, and the next
room-list broadcast omits it. -/
theorem C4_witness :
    getEntry (leaveRoom envAll twoState "h").1.rooms "9" = none ∧
    Out.dbDeleteRoom "9" ∈ (leaveRoom envAll twoState "h").2 ∧
    (∀ k, k ∈ twoRoom.players.map Prod.fst → k ≠ "h" →
      twoState.clients.contains k = true →
      ∃ ts, Out.roomCast "9" "roomClosed" ts ∈ (leaveRoom envAll twoState "h").2 ∧ k ∈ ts) ∧
    (∀ ids, Out.roomList ids ∈ (leaveRoom envAll twoState "h").2 → "9" ∉ ids) :=
  (C4_host_teardown envAll twoState "h" "9" twoRoom hostSession "P1" (by decide) (by decide)
    (by decide) (by decide)).1 (by decide) (by decide) (by decide)

theorem wsum_cons {α : Type} (w : α → Nat) (e : String × α) (m : List (String × α)) :
    wsum w (e :: m) = w e.2 + wsum w m := by
  simp [wsum]

theorem wsum_delEntry_le {α : Type} (w : α → Nat) (m : List (String × α)) (k : String) :
    wsum w (delEntry m k) ≤ wsum w m := by
  induction m with
  | nil => exact Nat.le_refl _
  | cons e rest ih =>
    rw [delEntry_cons, wsum_cons]
    by_cases h : e.1 = k
    · rw [if_pos h]
      exact Nat.le_trans ih (Nat.le_add_left _ _)
    · rw [if_neg h, wsum_cons]
      exact Nat.add_le_add_left ih _

theorem wsum_setEntry_le {α : Type} (w : α → Nat) (m : List (String × α)) (k : String)
    (v : α) : wsum w (setEntry m k v) ≤ wsum w m + w v := by
  induction m with
  | nil => simp [setEntry, wsum]
  | cons e rest ih =>
    rw [setEntry_cons, wsum_cons]
    by_cases h : e.1 = k
    · rw [if_pos h, wsum_cons]
      dsimp only
      omega
    · rw [if_neg h, wsum_cons]
      omega

theorem wsum_setEntry_eq_of_zero {α : Type} (w : α → Nat) (m : List (String × α))
    (k : String) (v : α) (h : wsum w m = 0) : wsum w (setEntry m k v) = w v := by
  induction m with
  | nil => simp [setEntry, wsum]
  | cons e rest ih =>
    rw [wsum_cons] at h
    rw [setEntry_cons]
    by_cases he : e.1 = k
    · rw [if_pos he, wsum_cons]
      dsimp only
      omega
    · rw [if_neg he, wsum_cons, ih (by omega)]
      omega

theorem wsum_setEntry_le_of_le {α : Type} (w : α → Nat) (m : List (String × α))
    (k : String) (v a : α) (hget : getEntry m k = some a) (hw : w v ≤ w a) :
    wsum w (setEntry m k v) ≤ wsum w m := by
  induction m with
  | nil => simp [getEntry] at hget
  | cons e rest ih =>
    rw [getEntry_cons] at hget
    rw [setEntry_cons]
    by_cases he : e.1 = k
    · rw [if_pos he] at hget
      have ha : a = e.2 := by simpa using (Option.some.inj hget).symm
      rw [if_pos he, wsum_cons, wsum_cons, ← ha]
      dsimp only
      omega
    · rw [if_neg he] at hget
      rw [if_neg he, wsum_cons, wsum_cons]
      exact Nat.add_le_add_left (ih hget) _

theorem wsum_map_congr {α : Type} (w : α → Nat) (m : List (String × α)) (f : α → α)
    (hf : ∀ a, w (f a) = w a) :
    wsum w (m.map (fun e => (e.1, f e.2))) = wsum w m := by
  induction m with
  | nil => rfl
  | cons e rest ih =>
    simp only [List.map_cons]
    rw [wsum_cons, wsum_cons, ih, hf]

theorem wsum_eq_zero_of_all_zero {α : Type} (w : α → Nat) (m : List (String × α))
    (h : ∀ e ∈ m, w e.2 = 0) : wsum w m = 0 := by
  induction m with
  | nil => rfl
  | cons e rest ih =>
    rw [wsum_cons, h e (List.mem_cons_self e rest),
      ih (fun e' he' => h e' (List.mem_cons_of_mem e he'))]

theorem getEntry_some_le_wsum {α : Type} (w : α → Nat) (m : List (String × α))
    (k : String) (a : α) (hget : getEntry m k = some a) : w a ≤ wsum w m := by
  induction m with
  | nil => simp [getEntry] at hget
  | cons e rest ih =>
    rw [getEntry_cons] at hget
    rw [wsum_cons]
    by_cases he : e.1 = k
    · rw [if_pos he] at hget
      have ha : a = e.2 := by simpa using (Option.some.inj hget).symm
      rw [ha]
      exact Nat.le_add_right _ _
    · rw [if_neg he] at hget
      exact Nat.le_trans (ih hget) (Nat.le_add_left _ _)

theorem mem_keys_setEntry {α : Type} (m : List (String × α)) (k : String) (v : α)
    (x : String) (h : x ∈ (setEntry m k v).map Prod.fst) :
    x = k ∨ x ∈ m.map Prod.fst := by
  simp only [List.mem_map] at h
  obtain ⟨e, he, rfl⟩ := h
  rcases mem_setEntry m k v e he with rfl | he'
  · exact Or.inl rfl
  · exact Or.inr (by simp only [List.mem_map]; exact ⟨e, he', rfl⟩)

theorem nodup_keys_setEntry {α : Type} (m : List (String × α)) (k : String) (v : α)
    (h : (m.map Prod.fst).Nodup) : ((setEntry m k v).map Prod.fst).Nodup := by
  induction m with
  | nil => simp [setEntry]
  | cons e rest ih =>
    rw [List.map_cons, List.nodup_cons] at h
    rw [setEntry_cons]
    by_cases he : e.1 = k
    · rw [if_pos he]
      rw [List.map_cons, List.nodup_cons]
      exact ⟨by rw [← he]; exact h.1, h.2⟩
    · rw [if_neg he]
      rw [List.map_cons, List.nodup_cons]
      refine ⟨?_, ih h.2⟩
      intro hmem
      rcases mem_keys_setEntry rest k v e.1 hmem with rfl | hmem'
      · exact he rfl
      · exact h.1 hmem'

theorem nodup_keys_delEntry {α : Type} (m : List (String × α)) (k : String)
    (h : (m.map Prod.fst).Nodup) : ((delEntry m k).map Prod.fst).Nodup :=
  ((List.filter_sublist m).map Prod.fst).nodup h

theorem getEntry_of_mem_nodup {α : Type} (m : List (String × α)) (k : String) (v : α)
    (hnd : (m.map Prod.fst).Nodup) (hmem : (k, v) ∈ m) : getEntry m k = some v := by
  induction m with
  | nil => simp at hmem
  | cons e rest ih =>
    rw [List.map_cons, List.nodup_cons] at hnd
    rw [getEntry_cons]
    rcases List.mem_cons.mp hmem with rfl | hmem'
    · rw [if_pos rfl]
    · by_cases he : e.1 = k
      · exfalso
        apply hnd.1
        rw [he]
        simp only [List.mem_map]
        exact ⟨(k, v), hmem', rfl⟩
      · rw [if_neg he]
        exact ih hnd.2 hmem'

/-- Player-id count over a rooms association list. -/
def pidCountR (rs : List (String × RoomData)) (pid : String) : Nat :=
  wsum (fun r => pcountPlayers r.players pid) rs

/-- The directory invariant: no duplicate room keys, and each player id
holds at most one session across the whole directory. -/
def RoomsInv (rs : List (String × RoomData)) : Prop :=
  (rs.map Prod.fst).Nodup ∧ ∀ pid, pidCountR rs pid ≤ 1

theorem roomsInv_set_le (rs : List (String × RoomData)) (K : String) (room room' : RoomData)
    (h : RoomsInv rs) (hget : getEntry rs K = some room)
    (hle : ∀ pid, pcountPlayers room'.players pid ≤ pcountPlayers room.players pid) :
    RoomsInv (setEntry rs K room') :=
  ⟨nodup_keys_setEntry _ _ _ h.1,
   fun pid => Nat.le_trans (wsum_setEntry_le_of_le _ _ _ _ _ hget (hle pid)) (h.2 pid)⟩

theorem roomsInv_del (rs : List (String × RoomData)) (K : String) (h : RoomsInv rs) :
    RoomsInv (delEntry rs K) :=
  ⟨nodup_keys_delEntry _ _ h.1,
   fun pid => Nat.le_trans (wsum_delEntry_le _ _ _) (h.2 pid)⟩

theorem pidCountR_zero_of_find_none (rs : List (String × RoomData)) (pid : String)
    (h : rs.find? (fun e => e.2.players.any (fun pl => pl.2._id == pid)) = none) :
    pidCountR rs pid = 0 := by
  apply wsum_eq_zero_of_all_zero
  intro e he
  have hany : (e.2.players.any (fun pl => pl.2._id == pid)) = false := by
    have := List.find?_eq_none.mp h e he
    simpa using this
  apply wsum_eq_zero_of_all_zero
  intro pl hpl
  have : (pl.2._id == pid) = false := by
    have := List.any_eq_false.mp hany pl hpl
    simpa using this
  simp [this]

theorem pcount_setEntry_same_id (ps : List (String × PlayerData)) (sid : String)
    (player player1 : PlayerData) (pid : String)
    (hp : getEntry ps sid = some player) (hid : player1._id = player._id) :
    pcountPlayers (setEntry ps sid player1) pid ≤ pcountPlayers ps pid :=
  wsum_setEntry_le_of_le _ ps sid player1 player hp (by rw [hid])

theorem pcount_map_same_id (ps : List (String × PlayerData)) (f : PlayerData → PlayerData)
    (pid : String) (hf : ∀ p, (f p)._id = p._id) :
    pcountPlayers (ps.map (fun pl => (pl.1, f pl.2))) pid = pcountPlayers ps pid :=
  wsum_map_congr _ ps f (fun p => by rw [hf])

theorem two_entries_le_wsum {α : Type} (w : α → Nat) (m : List (String × α))
    (k1 k2 : String) (a1 a2 : α)
    (h1 : getEntry m k1 = some a1) (h2 : getEntry m k2 = some a2) (hne : k1 ≠ k2) :
    w a1 + w a2 ≤ wsum w m := by
  induction m with
  | nil => simp [getEntry] at h1
  | cons e rest ih =>
    rw [getEntry_cons] at h1 h2
    rw [wsum_cons]
    by_cases he1 : e.1 = k1
    · rw [if_pos he1] at h1
      have ha1 : a1 = e.2 := by simpa using (Option.some.inj h1).symm
      rw [if_neg (by rw [he1]; exact hne)] at h2
      rw [ha1]
      exact Nat.add_le_add_left (getEntry_some_le_wsum _ _ _ _ h2) _
    · rw [if_neg he1] at h1
      by_cases he2 : e.1 = k2
      · rw [if_pos he2] at h2
        have ha2 : a2 = e.2 := by simpa using (Option.some.inj h2).symm
        rw [ha2]
        have := getEntry_some_le_wsum w rest k1 a1 h1
        omega
      · rw [if_neg he2] at h2
        exact Nat.le_trans (ih h1 h2) (Nat.le_add_left _ _)

theorem pidCountR_set_eq_of_zero (rs : List (String × RoomData)) (K : String)
    (room' : RoomData) (pid : String) (h : pidCountR rs pid = 0) :
    pidCountR (setEntry rs K room') pid = pcountPlayers room'.players pid :=
  wsum_setEntry_eq_of_zero _ _ _ _ h

theorem pidCountR_set_le (rs : List (String × RoomData)) (K : String) (room' : RoomData)
    (pid : String) :
    pidCountR (setEntry rs K room') pid ≤ pidCountR rs pid + pcountPlayers room'.players pid :=
  wsum_setEntry_le _ _ _ _

theorem pidCountR_set_le_of_le (rs : List (String × RoomData)) (K : String)
    (room room' : RoomData) (pid : String) (hget : getEntry rs K = some room)
    (hle : pcountPlayers room'.players pid ≤ pcountPlayers room.players pid) :
    pidCountR (setEntry rs K room') pid ≤ pidCountR rs pid :=
  wsum_setEntry_le_of_le _ _ _ _ _ hget hle

theorem pidCountR_del_le (rs : List (String × RoomData)) (K : String) (pid : String) :
    pidCountR (delEntry rs K) pid ≤ pidCountR rs pid :=
  wsum_delEntry_le _ _ _

theorem pcount_room_le_pidCountR (rs : List (String × RoomData)) (K : String)
    (room : RoomData) (pid : String) (hget : getEntry rs K = some room) :
    pcountPlayers room.players pid ≤ pidCountR rs pid :=
  getEntry_some_le_wsum (fun r => pcountPlayers r.players pid) rs K room hget

theorem pcount_set_le (ps : List (String × PlayerData)) (k : String) (v : PlayerData)
    (pid : String) :
    pcountPlayers (setEntry ps k v) pid ≤
      pcountPlayers ps pid + (if v._id == pid then 1 else 0) :=
  wsum_setEntry_le _ _ _ _

theorem pcount_del_le (ps : List (String × PlayerData)) (k : String) (pid : String) :
    pcountPlayers (delEntry ps k) pid ≤ pcountPlayers ps pid :=
  wsum_delEntry_le _ _ _

theorem inv_createRoom (env : Env) (s : GState) (sid : String) (d : CreateRoomDto)
    (henv : EnvWf env) (h : RoomsInv s.rooms) :
    RoomsInv (createRoom env s sid d).1.rooms := by
  unfold createRoom
  split
  · exact h
  · rename_i p hp
    split
    · exact h
    · rename_i hfind
      split
      · exact h
      · dsimp only
        refine ⟨nodup_keys_setEntry _ _ _ h.1, ?_⟩
        intro pid
        by_cases hpid : pid = d.playerId
        · subst hpid
          rw [pidCountR_set_eq_of_zero _ _ _ _ (pidCountR_zero_of_find_none _ _ hfind)]
          simp only [pcountPlayers, wsum, List.map_cons, List.map_nil, List.sum_cons,
            List.sum_nil]
          split <;> simp
        · have hpd : p._id = d.playerId := henv _ _ hp
          refine Nat.le_trans (pidCountR_set_le _ _ _ _) ?_
          have hw0 : pcountPlayers
              [(sid,
                { _id := p._id, socketId := sid, telegramId := p.telegramId,
                  playerName := p.playerName, mainCar := p.mainCar,
                  ownerCars := p.ownerCars, isHost := true, position := Vec3.zero,
                  rotation := Vec3.zero, speed := 0, status := PlayerStatus.Ready,
                  distance := 0, isLoaded := false })] pid = 0 := by
            simp [pcountPlayers, wsum, hpd, Ne.symm hpid]
          rw [hw0]
          simpa using h.2 pid

theorem inv_joinRoom (env : Env) (s : GState) (sid : String) (d : JoinRoomDto)
    (henv : EnvWf env) (h : RoomsInv s.rooms) :
    RoomsInv (joinRoom env s sid d).1.rooms := by
  unfold joinRoom
  split
  · exact h
  · rename_i room hroom
    split
    · exact h
    · split
      · exact h
      · split
        · exact h
        · rename_i player hplayer
          split
          · exact h
          · split
            · split
              · exact h
              · exact h
            · rename_i hfind
              split
              · exact h
              · dsimp only
                refine ⟨nodup_keys_setEntry _ _ _ h.1, ?_⟩
                intro pid
                have hpd : player._id = d.playerId := henv _ _ hplayer
                by_cases hpid : pid = d.playerId
                · subst hpid
                  rw [pidCountR_set_eq_of_zero _ _ _ _
                    (pidCountR_zero_of_find_none _ _ hfind)]
                  have hr0 : pcountPlayers room.players d.playerId = 0 := by
                    have h1 := pcount_room_le_pidCountR s.rooms d.roomID room d.playerId hroom
                    have h2 := pidCountR_zero_of_find_none _ _ hfind
                    omega
                  refine Nat.le_trans (pcount_set_le _ _ _ _) ?_
                  rw [hr0]
                  split <;> simp
                · refine Nat.le_trans
                    (pidCountR_set_le_of_le s.rooms d.roomID room _ pid hroom ?_)
                    (h.2 pid)
                  refine Nat.le_trans (pcount_set_le _ _ _ _) ?_
                  have : (if
                      ({ _id := player._id, socketId := sid, telegramId := player.telegramId,
                         playerName := player.playerName, mainCar := player.mainCar,
                         ownerCars := player.ownerCars, isHost := false, position := Vec3.zero,
                         rotation := Vec3.zero, speed := 0, status := PlayerStatus.Waiting,
                         distance := 0, isLoaded := false } : PlayerData)._id == pid
                      then 1 else 0) = 0 := by
                    simp [hpd, Ne.symm hpid]
                  rw [this]
                  simp

theorem inv_leaveRoom (env : Env) (s : GState) (sid : String) (h : RoomsInv s.rooms) :
    RoomsInv (leaveRoom env s sid).1.rooms := by
  unfold leaveRoom
  split
  · exact h
  · rename_i rme hfind
    have hgetr : getEntry s.rooms rme.1 = some rme.2 :=
      getEntry_of_mem_nodup _ _ _ h.1 (List.mem_of_find?_eq_some hfind)
    dsimp only
    split
    · exact roomsInv_set_le _ _ _ _ h hgetr (fun pid => pcount_del_le _ _ _)
    · split
      · exact roomsInv_set_le _ _ _ _ h hgetr (fun pid => pcount_del_le _ _ _)
      · split
        · split
          · exact roomsInv_del _ _
              (roomsInv_set_le _ _ _ _ h hgetr (fun pid => pcount_del_le _ _ _))
          · exact roomsInv_del _ _
              (roomsInv_set_le _ _ _ _ h hgetr (fun pid => pcount_del_le _ _ _))
        · exact roomsInv_set_le _ _ _ _ h hgetr (fun pid => pcount_del_le _ _ _)

theorem inv_handleDisconnect (env : Env) (s : GState) (sid : String)
    (h : RoomsInv s.rooms) : RoomsInv (handleDisconnect env s sid).1.rooms := by
  unfold handleDisconnect
  split
  · exact h
  · split
    · exact h
    · rename_i rme hfind
      have hgetr : getEntry s.rooms rme.1 = some rme.2 :=
        getEntry_of_mem_nodup _ _ _ h.1 (List.mem_of_find?_eq_some hfind)
      dsimp only
      split
      · exact roomsInv_del _ _
          (roomsInv_set_le _ _ _ _ h hgetr (fun pid => pcount_del_le _ _ _))
      · exact roomsInv_set_le _ _ _ _ h hgetr (fun pid => pcount_del_le _ _ _)

theorem inv_kickPlayer (env : Env) (s : GState) (sid : String) (d : KickPlayerDto)
    (h : RoomsInv s.rooms) : RoomsInv (kickPlayer env s sid d).1.rooms := by
  unfold kickPlayer
  split
  · exact h
  · split
    · exact h
    · rename_i room hroom
      split
      · exact h
      · rename_i kicker hkicker
        split
        · exact h
        · split
          · exact h
          · dsimp only
            split
            · exact roomsInv_set_le _ _ _ _ h hroom (fun pid => pcount_del_le _ _ _)
            · exact roomsInv_set_le _ _ _ _ h hroom (fun pid => pcount_del_le _ _ _)

theorem inv_playerReady (env : Env) (s : GState) (sid : String) (d : PlayerReadyDto)
    (h : RoomsInv s.rooms) : RoomsInv (playerReady env s sid d).1.rooms := by
  unfold playerReady
  split
  · exact h
  · rename_i room hroom
    split
    · exact h
    · split
      · exact h
      · rename_i player hplayer
        split
        · exact h
        · split
          · exact h
          · dsimp only
            split
            · exact roomsInv_set_le _ _ _ _ h hroom
                (fun pid => pcount_setEntry_same_id _ _ _ _ _ hplayer rfl)
            · exact roomsInv_set_le _ _ _ _ h hroom
                (fun pid => pcount_setEntry_same_id _ _ _ _ _ hplayer rfl)

theorem inv_playerChangeCar (env : Env) (s : GState) (sid : String)
    (d : PlayerChangeCarDto) (h : RoomsInv s.rooms) :
    RoomsInv (playerChangeCar env s sid d).1.rooms := by
  rcases playerChangeCar_cases env s sid d with hsame | hupd
  · rw [hsame]
    exact h
  · obtain ⟨room, player, hroom, -, hp, -, -, -, -, hres⟩ := hupd
    rw [hres]
    exact roomsInv_set_le _ _ _ _ h hroom
      (fun pid => pcount_setEntry_same_id _ _ _ _ _ hp rfl)

theorem inv_loadingGame (s : GState) (sid : String) (d : LoadingGameDto)
    (h : RoomsInv s.rooms) : RoomsInv (loadingGame s sid d).1.rooms := by
  unfold loadingGame
  split
  · exact h
  · rename_i room hroom
    split
    · exact h
    · split
      · exact h
      · rename_i player hplayer
        split
        · exact h
        · split
          · exact h
          · dsimp only
            split
            · exact roomsInv_set_le _ _ _ _ h hroom
                (fun pid => pcount_setEntry_same_id _ _ _ _ _ hplayer rfl)
            · exact roomsInv_set_le _ _ _ _ h hroom
                (fun pid => pcount_setEntry_same_id _ _ _ _ _ hplayer rfl)

theorem inv_syncPosition (s : GState) (sid : String) (d : PositionSyncDto)
    (h : RoomsInv s.rooms) : RoomsInv (syncPosition s sid d).1.rooms := by
  unfold syncPosition
  split
  · exact h
  · split
    · exact h
    · rename_i room hroom
      split
      · exact h
      · split
        · exact h
        · rename_i player hplayer
          dsimp only
          exact roomsInv_set_le _ _ _ _ h hroom
            (fun pid => pcount_setEntry_same_id _ _ _ _ _ hplayer rfl)

theorem inv_syncCarPosition (s : GState) (sid : String) (d : PositionSyncDto)
    (h : RoomsInv s.rooms) : RoomsInv (syncCarPosition s sid d).1.rooms := by
  unfold syncCarPosition
  split
  · exact h
  · split
    · exact h
    · split
      · exact h
      · split
        · exact h
        · exact h

theorem inv_startGame (env : Env) (s : GState) (sid : String) (d : StartGameDto)
    (h : RoomsInv s.rooms) : RoomsInv (startGame env s sid d).1.rooms := by
  unfold startGame
  split
  · exact h
  · rename_i room hroom
    dsimp only
    split
    · exact h
    · split
      · exact h
      · split
        · exact h
        · split
          · exact h
          · split
            · split
              · dsimp only
                rw [setEntry_setEntry_same]
                refine roomsInv_set_le _ _ _ _ h hroom (fun pid => ?_)
                exact Nat.le_of_eq (pcount_map_same_id room.players
                  (fun p => { p with status := PlayerStatus.Ready }) pid (fun p => rfl))
              · dsimp only
                rw [setEntry_setEntry_same]
                refine roomsInv_set_le _ _ _ _ h hroom (fun pid => ?_)
                exact Nat.le_of_eq (pcount_map_same_id room.players
                  (fun p => { p with status := PlayerStatus.Ready }) pid (fun p => rfl))
            · dsimp only
              rw [setEntry_setEntry_same]
              refine roomsInv_set_le _ _ _ _ h hroom (fun pid => ?_)
              exact Nat.le_of_eq (pcount_map_same_id room.players
                (fun p =>
                  { p with
                    isLoaded := false
                    distance := 0
                    position := Vec3.zero
                    rotation := Vec3.zero
                    speed := 0 }) pid (fun p => rfl))

theorem inv_updateStatusWaitingRoom (env : Env) (s : GState) (sid : String)
    (d : WaitingRoomDto) (h : RoomsInv s.rooms) :
    RoomsInv (updateStatusWaitingRoom env s sid d).1.rooms := by
  unfold updateStatusWaitingRoom
  split
  · exact h
  · rename_i room hroom
    dsimp only
    split
    · exact h
    · split
      · exact roomsInv_set_le _ _ _ _ h hroom (fun pid => Nat.le_refl _)
      · refine roomsInv_set_le _ _ _ _ h hroom (fun pid => ?_)
        refine Nat.le_of_eq (pcount_map_same_id room.players
          (fun p => if p.isHost then p else { p with status := PlayerStatus.Waiting }) pid
          (fun p => ?_))
        dsimp only
        split
        · rfl
        · rfl

theorem inv_step (env : Env) (henv : EnvWf env) (s : GState) (e : Ev)
    (h : RoomsInv s.rooms) : RoomsInv (step env s e).1.rooms := by
  cases e with
  | connect sid => exact h
  | create sid d => exact inv_createRoom env s sid d henv h
  | join sid d => exact inv_joinRoom env s sid d henv h
  | leave sid => exact inv_leaveRoom env s sid h
  | kick sid d => exact inv_kickPlayer env s sid d h
  | disconnect sid => exact inv_handleDisconnect env s sid h
  | ready sid d => exact inv_playerReady env s sid d h
  | changeCar sid d => exact inv_playerChangeCar env s sid d h
  | loading sid d => exact inv_loadingGame s sid d h
  | start sid d => exact inv_startGame env s sid d h
  | waiting sid d => exact inv_updateStatusWaitingRoom env s sid d h
  | syncPos sid d => exact inv_syncPosition s sid d h
  | syncCarPos sid d => exact inv_syncCarPosition s sid d h

theorem inv_run (env : Env) (henv : EnvWf env) (evs : List Ev) :
    ∀ (s : GState), RoomsInv s.rooms → RoomsInv (run env s evs).1.rooms := by
  induction evs with
  | nil => exact fun s h => h
  | cons e evs ih =>
    intro s h
    exact ih (step env s e).1 (inv_step env henv s e h)

/-- The empty post-startup state. -/
def emptyState : GState :=
  { clients := [], clientPlayerMap := [], rooms := [], seq := 0 }

/-- The event trace refuting C3: connection s1 creates room 1 as player P1,
connection s2 creates room 2 as player P2, then connection s1 joins room 2
under a different player id P3 while still holding its session in room 1. -/
def c3Events : List Ev :=
  [Ev.connect "s1", Ev.connect "s2",
   Ev.create "s1" { value := 0, password := none, playerId := "P1" },
   Ev.create "s2" { value := 0, password := none, playerId := "P2" },
   Ev.join "s1" { roomID := "2", playerId := "P3", password := none }]

/-- C3 counterexample: from the empty directory, a reachable sequence of
createRoom and joinRoom events leaves connection identifier s1 holding
sessions in the players maps of two distinct rooms simultaneously, because
the already-in-a-room guards check the supplied player id, not the
connection. -/
theorem C3_counterexample :
    ((getEntry (run envAll emptyState c3Events).1.rooms "1").map
      (fun r => (getEntry r.players "s1").isSome)) = some true ∧
    ((getEntry (run envAll emptyState c3Events).1.rooms "2").map
      (fun r => (getEntry r.players "s1").isSome)) = some true ∧
    ("1" : String) ≠ "2" := by
  refine ⟨by decide, by decide, by decide⟩

/-- C3 (amended): in every state reachable from a directory whose rooms
hold no sessions, each player id is carried by at most one session across
the whole directory: two sessions with the same player id coincide (same
room key and same socket key).  A connection identifier, by contrast, can
hold sessions in two rooms when it presents two different player ids, as
the counterexample shows; per player id the at-most-one-room property
holds. -/
theorem C3_player_at_most_one_room (env : Env) (henv : EnvWf env) (s0 : GState)
    (h0 : RoomsInv s0.rooms) (evs : List Ev) :
    (∀ pid, pidCountR (run env s0 evs).1.rooms pid ≤ 1) ∧
    (∀ R1 R2 r1 r2 sk1 sk2 p1 p2,
      getEntry (run env s0 evs).1.rooms R1 = some r1 →
      getEntry (run env s0 evs).1.rooms R2 = some r2 →
      getEntry r1.players sk1 = some p1 →
      getEntry r2.players sk2 = some p2 →
      p1._id = p2._id → R1 = R2 ∧ sk1 = sk2) := by
  have hinv := inv_run env henv evs s0 h0
  refine ⟨hinv.2, ?_⟩
  intro R1 R2 r1 r2 sk1 sk2 p1 p2 h1 h2 h3 h4 hid
  have hw1 : (1 : Nat) ≤ pcountPlayers r1.players p1._id := by
    have hle := getEntry_some_le_wsum
      (fun p => if p._id == p1._id then 1 else 0) r1.players sk1 p1 h3
    dsimp only at hle
    rw [show (if (p1._id == p1._id) then (1 : Nat) else 0) = 1 by simp] at hle
    exact hle
  have hw2 : (1 : Nat) ≤ pcountPlayers r2.players p1._id := by
    have hle := getEntry_some_le_wsum
      (fun p => if p._id == p1._id then 1 else 0) r2.players sk2 p2 h4
    dsimp only at hle
    rw [show (if (p2._id == p1._id) then (1 : Nat) else 0) = 1 by simp [← hid]] at hle
    exact hle
  have hR : R1 = R2 := by
    by_contra hne
    have htwo := two_entries_le_wsum
      (fun r => pcountPlayers r.players p1._id) (run env s0 evs).1.rooms
      R1 R2 r1 r2 h1 h2 hne
    dsimp only at htwo
    have hb := hinv.2 p1._id
    have hb' : pidCountR (run env s0 evs).1.rooms p1._id ≤ 1 := hb
    unfold pidCountR at hb'
    omega
  subst hR
  rw [h1] at h2
  obtain rfl := Option.some.inj h2
  refine ⟨rfl, ?_⟩
  by_contra hne
  have htwo := two_entries_le_wsum
    (fun p => if p._id == p1._id then 1 else 0) r1.players sk1 sk2 p1 p2 h3 h4 hne
  have hone : (if (p1._id == p1._id) then (1 : Nat) else 0) +
      (if (p2._id == p1._id) then (1 : Nat) else 0) = 2 := by
    simp [← hid]
  rw [hone] at htwo
  have hc := pcount_room_le_pidCountR (run env s0 evs).1.rooms R1 r1 p1._id h1
  have hb := hinv.2 p1._id
  have : pcountPlayers r1.players p1._id =
      wsum (fun p => if p._id == p1._id then 1 else 0) r1.players := rfl
  omega

/-- Witness for the amended C3: after the counterexample trace itself,
every player id still holds at most one session. -/
theorem C3_witness :
    (∀ pid, pidCountR (run envAll emptyState c3Events).1.rooms pid ≤ 1) ∧
    (∀ R1 R2 r1 r2 sk1 sk2 p1 p2,
      getEntry (run envAll emptyState c3Events).1.rooms R1 = some r1 →
      getEntry (run envAll emptyState c3Events).1.rooms R2 = some r2 →
      getEntry r1.players sk1 = some p1 →
      getEntry r2.players sk2 = some p2 →
      p1._id = p2._id → R1 = R2 ∧ sk1 = sk2) :=
  C3_player_at_most_one_room envAll
    (by
      intro id p hp
      simp only [envAll] at hp
      split at hp
      · obtain rfl := Option.some.inj hp
        rfl
      · cases hp)
    emptyState
    (by exact ⟨List.nodup_nil, fun pid => Nat.zero_le 1⟩)
    c3Events

theorem getEntry_some_mem {α : Type} (m : List (String × α)) (k : String) (v : α)
    (h : getEntry m k = some v) : (k, v) ∈ m := by
  induction m with
  | nil => simp [getEntry] at h
  | cons e rest ih =>
    rw [getEntry_cons] at h
    by_cases he : e.1 = k
    · rw [if_pos he] at h
      have : v = e.2 := by simpa using (Option.some.inj h).symm
      subst this
      rw [← he]
      exact List.mem_cons_self e rest
    · rw [if_neg he] at h
      exact List.mem_cons_of_mem e (ih h)

theorem allB_delEntry {α : Type} (P : String × α → Bool) (ps : List (String × α))
    (k : String) (h : ps.all P = true) : (delEntry ps k).all P = true := by
  rw [List.all_eq_true] at h ⊢
  intro x hx
  exact h x (List.mem_filter.mp hx).1

theorem allB_setEntry {α : Type} (P : String × α → Bool) (ps : List (String × α))
    (k : String) (v : α) (h : ps.all P = true) (hv : P (k, v) = true) :
    (setEntry ps k v).all P = true := by
  induction ps with
  | nil => simp [setEntry, hv]
  | cons e rest ih =>
    rw [List.all_cons, Bool.and_eq_true] at h
    rw [setEntry_cons]
    by_cases he : e.1 = k
    · rw [if_pos he, List.all_cons, hv, h.2]
      rfl
    · rw [if_neg he, List.all_cons, h.1, ih h.2]
      rfl

theorem all_isLoaded_getEntry (ps : List (String × PlayerData)) (sid : String)
    (player : PlayerData) (h : ps.all (fun pl => pl.2.isLoaded) = true)
    (hp : getEntry ps sid = some player) : player.isLoaded = true := by
  rw [List.all_eq_true] at h
  simpa using h (sid, player) (getEntry_some_mem ps sid player hp)

theorem all_isLoaded_false_of_unloaded (ps : List (String × PlayerData)) (sid : String)
    (player : PlayerData) (hp : getEntry ps sid = some player)
    (hnl : player.isLoaded = false) : ps.all (fun pl => pl.2.isLoaded) = false := by
  cases hall : ps.all (fun pl => pl.2.isLoaded) with
  | false => rfl
  | true => rw [all_isLoaded_getEntry ps sid player hall hp] at hnl; cases hnl

theorem countAPL_append (R : String) (a b : List Out) :
    countAPL R (a ++ b) = countAPL R a + countAPL R b := by
  simp [countAPL, List.filter_append]

theorem countAPL_sendToClient (R : String) (s : GState) (sid ev : String) :
    countAPL R (sendToClient s sid ev) = 0 := by
  unfold sendToClient
  split <;> rfl

theorem countAPL_sendErr (R : String) (s : GState) (sid msg : String) :
    countAPL R (sendErr s sid msg) = 0 := by
  unfold sendErr
  split <;> rfl

theorem countAPL_roomListOut (R : String) (s : GState) :
    countAPL R (broadcastRoomList s) = 0 := by
  unfold broadcastRoomList
  split <;> rfl

theorem countAPL_roomCast_ne (R : String) (s : GState) (K ev : String)
    (excl : Option String) (hev : (ev == "allPlayersLoaded") = false) :
    countAPL R (broadcastToRoom s K ev excl) = 0 := by
  unfold broadcastToRoom
  split
  · rfl
  · split
    · rfl
    · simp [countAPL, hev]

theorem countAPL_broadcast_le_one (R : String) (s : GState) (K ev : String)
    (excl : Option String) : countAPL R (broadcastToRoom s K ev excl) ≤ 1 := by
  unfold broadcastToRoom
  split
  · exact Nat.zero_le 1
  · split
    · exact Nat.zero_le 1
    · exact Nat.le_trans (List.length_filter_le _ _) (by simp)

theorem roomBarrier_allLoaded (s : GState) (R : String) (h : roomBarrier s R = true) :
    roomAllLoaded s R = true := by
  unfold roomBarrier at h
  unfold roomAllLoaded
  cases hroom : getEntry s.rooms R with
  | none => rfl
  | some room =>
    rw [hroom] at h
    exact ((Bool.and_eq_true _ _).mp h).2

theorem runningIn_some_status (s : GState) (R : String) (room : RoomData)
    (hroom : getEntry s.rooms R = some room) (h : runningIn s R = true) :
    room.status = RoomStatus.RUNNING := by
  unfold runningIn at h
  rw [hroom] at h
  simpa using h

theorem roomAllLoaded_some (s : GState) (R : String) (room : RoomData)
    (hroom : getEntry s.rooms R = some room) (h : roomAllLoaded s R = true) :
    room.players.all (fun pl => pl.2.isLoaded) = true := by
  unfold roomAllLoaded at h
  rw [hroom] at h
  exact h

theorem roomAllLoaded_congr (s s' : GState) (R : String)
    (h : getEntry s'.rooms R = getEntry s.rooms R) :
    roomAllLoaded s' R = roomAllLoaded s R := by
  unfold roomAllLoaded
  rw [h]

theorem runningIn_false_of_none (s : GState) (R : String)
    (h : getEntry s.rooms R = none) : runningIn s R = false := by
  unfold runningIn
  rw [h]

theorem runningIn_false_of_waiting (s : GState) (R : String) (room : RoomData)
    (hroom : getEntry s.rooms R = some room) (hst : room.status = RoomStatus.WAITING) :
    runningIn s R = false := by
  unfold runningIn
  rw [hroom]
  dsimp only
  rw [hst]
  rfl

theorem countAPL_nil (R : String) : countAPL R [] = 0 := rfl

theorem countAPL_dbDelete (R K : String) : countAPL R [Out.dbDeleteRoom K] = 0 := rfl

theorem countAPL_cons_dbDelete (R K : String) (l : List Out) :
    countAPL R (Out.dbDeleteRoom K :: l) = countAPL R l := by
  simp [countAPL, List.filter_cons]

theorem apl_connectClient (R : String) (s : GState) (sid : String) :
    countAPL R (connectClient s sid).2 = 0 := rfl

theorem apl_createRoom (R : String) (env : Env) (s : GState) (sid : String)
    (d : CreateRoomDto) : countAPL R (createRoom env s sid d).2 = 0 := by
  unfold createRoom
  repeat' split
  all_goals simp [countAPL_nil, countAPL_append, countAPL_sendToClient, countAPL_sendErr,
    countAPL_roomListOut, countAPL_roomCast_ne]

theorem apl_joinRoom (R : String) (env : Env) (s : GState) (sid : String)
    (d : JoinRoomDto) : countAPL R (joinRoom env s sid d).2 = 0 := by
  unfold joinRoom
  repeat' split
  all_goals simp [countAPL_nil, countAPL_append, countAPL_sendToClient, countAPL_sendErr,
    countAPL_roomListOut, countAPL_roomCast_ne]

theorem apl_leaveRoom (R : String) (env : Env) (s : GState) (sid : String) :
    countAPL R (leaveRoom env s sid).2 = 0 := by
  unfold leaveRoom
  split
  · rfl
  · dsimp only
    split
    · exact countAPL_roomListOut _ _
    · split
      · exact countAPL_sendToClient _ _ _ _
      · split
        · split
          · simp [countAPL_append, countAPL_sendToClient, countAPL_roomCast_ne]
          · simp [countAPL_append, countAPL_sendToClient, countAPL_roomCast_ne,
              countAPL_dbDelete, countAPL_roomListOut, countAPL_cons_dbDelete]
        · simp [countAPL_append, countAPL_sendToClient, countAPL_roomCast_ne,
            countAPL_roomListOut]

theorem apl_handleDisconnect (R : String) (env : Env) (s : GState) (sid : String) :
    countAPL R (handleDisconnect env s sid).2 = 0 := by
  unfold handleDisconnect
  split
  · rfl
  · split
    · rfl
    · rename_i rme hfind
      dsimp only
      cases hw : (match getEntry rme.2.players sid with
        | some p => p.isHost
        | none => false) with
      | true =>
        rw [if_pos rfl]
        cases hdb : env.discDeleteDbOk with
        | true =>
          simp [countAPL_append, countAPL_roomCast_ne, countAPL_dbDelete,
            countAPL_roomListOut, countAPL_nil, countAPL_cons_dbDelete]
        | false =>
          simp [countAPL_append, countAPL_roomCast_ne, countAPL_dbDelete,
            countAPL_roomListOut, countAPL_nil, countAPL_cons_dbDelete]
      | false =>
        rw [if_neg (by decide)]
        simp [countAPL_append, countAPL_roomCast_ne, countAPL_roomListOut, countAPL_nil]

theorem apl_kickPlayer (R : String) (env : Env) (s : GState) (sid : String)
    (d : KickPlayerDto) : countAPL R (kickPlayer env s sid d).2 = 0 := by
  unfold kickPlayer
  repeat' split
  all_goals simp [countAPL_nil, countAPL_append, countAPL_sendToClient, countAPL_sendErr,
    countAPL_roomListOut, countAPL_roomCast_ne]

theorem apl_playerReady (R : String) (env : Env) (s : GState) (sid : String)
    (d : PlayerReadyDto) : countAPL R (playerReady env s sid d).2 = 0 := by
  unfold playerReady
  repeat' split
  all_goals simp [countAPL_nil, countAPL_append, countAPL_sendToClient, countAPL_sendErr,
    countAPL_roomListOut, countAPL_roomCast_ne]

theorem apl_playerChangeCar (R : String) (env : Env) (s : GState) (sid : String)
    (d : PlayerChangeCarDto) : countAPL R (playerChangeCar env s sid d).2 = 0 := by
  unfold playerChangeCar
  repeat' split
  all_goals simp [countAPL_nil, countAPL_append, countAPL_sendToClient, countAPL_sendErr,
    countAPL_roomListOut, countAPL_roomCast_ne]

theorem apl_startGame (R : String) (env : Env) (s : GState) (sid : String)
    (d : StartGameDto) : countAPL R (startGame env s sid d).2 = 0 := by
  unfold startGame
  repeat' split
  all_goals simp [countAPL_nil, countAPL_append, countAPL_sendToClient, countAPL_sendErr,
    countAPL_roomListOut, countAPL_roomCast_ne, apply_ite (countAPL R),
    apply_ite (@Prod.snd GState (List Out))]

theorem apl_updateStatusWaitingRoom (R : String) (env : Env) (s : GState) (sid : String)
    (d : WaitingRoomDto) : countAPL R (updateStatusWaitingRoom env s sid d).2 = 0 := by
  unfold updateStatusWaitingRoom
  repeat' split
  all_goals simp [countAPL_nil, countAPL_append, countAPL_sendToClient, countAPL_sendErr,
    countAPL_roomListOut, countAPL_roomCast_ne, apply_ite (countAPL R),
    apply_ite (@Prod.snd GState (List Out))]

theorem apl_syncPosition (R : String) (s : GState) (sid : String) (d : PositionSyncDto) :
    countAPL R (syncPosition s sid d).2 = 0 := by
  unfold syncPosition
  repeat' split
  all_goals simp [countAPL_nil, countAPL_append, countAPL_sendToClient, countAPL_sendErr,
    countAPL_roomListOut, countAPL_roomCast_ne]

theorem apl_syncCarPosition (R : String) (s : GState) (sid : String)
    (d : PositionSyncDto) : countAPL R (syncCarPosition s sid d).2 = 0 := by
  unfold syncCarPosition
  repeat' split
  all_goals simp [countAPL_nil, countAPL_append, countAPL_sendToClient, countAPL_sendErr,
    countAPL_roomListOut, countAPL_roomCast_ne]

theorem countAPL_broadcast_apl (R : String) (s : GState) (K : String) (excl : Option String)
    (room : RoomData) (hroom : getEntry s.rooms K = some room)
    (hne : room.players.isEmpty = false) :
    countAPL R (broadcastToRoom s K "allPlayersLoaded" excl) = if K == R then 1 else 0 := by
  unfold broadcastToRoom
  rw [hroom]
  dsimp only
  rw [if_neg (by simp [hne])]
  by_cases hk : K = R
  · simp [countAPL, List.filter_cons, hk]
  · simp [countAPL, List.filter_cons, hk]

theorem apl_loadingGame (R : String) (s : GState) (sid : String) (d : LoadingGameDto) :
    countAPL R (loadingGame s sid d).2 ≤ 1 ∧
    (1 ≤ countAPL R (loadingGame s sid d).2 →
      roomBarrier (loadingGame s sid d).1 R = true ∧ roomAllLoaded s R = false) := by
  unfold loadingGame
  split
  · exact ⟨Nat.zero_le 1, fun h => by simp [countAPL] at h⟩
  · rename_i room hroom
    split
    · exact ⟨Nat.zero_le 1, fun h => by simp [countAPL] at h⟩
    · split
      · exact ⟨Nat.zero_le 1, fun h => by simp [countAPL] at h⟩
      · rename_i player hplayer
        split
        · exact ⟨Nat.zero_le 1, fun h => by simp [countAPL] at h⟩
        · split
          · exact ⟨Nat.zero_le 1, fun h => by simp [countAPL] at h⟩
          · rename_i hnl
            dsimp only
            split
            · rename_i hall
              rw [Bool.and_eq_true] at hall
              have hne1 : (setEntry room.players sid
                  { player with isLoaded := true, status := PlayerStatus.Ready }).isEmpty =
                  false := by
                cases hx : (setEntry room.players sid
                    { player with isLoaded := true, status := PlayerStatus.Ready }).isEmpty
                · rfl
                · rw [hx] at hall
                  simp at hall
              have hcast := countAPL_broadcast_apl R
                { s with
                  rooms :=
                    setEntry s.rooms d.roomID
                      ({ room with
                          players :=
                            setEntry room.players sid
                              ({ player with
                                  isLoaded := true
                                  status := PlayerStatus.Ready }) }) }
                d.roomID none
                ({ room with
                    players :=
                      setEntry room.players sid
                        ({ player with
                            isLoaded := true
                            status := PlayerStatus.Ready }) })
                (getEntry_setEntry_self _ _ _) hne1
              constructor
              · rw [countAPL_append, countAPL_roomCast_ne R _ _ _ _ (by simp), hcast]
                split <;> simp
              · intro hone
                rw [countAPL_append, countAPL_roomCast_ne R _ _ _ _ (by simp), hcast] at hone
                have hkr : d.roomID = R := by
                  by_cases hk : d.roomID = R
                  · exact hk
                  · rw [if_neg (by simpa using hk)] at hone
                    omega
                subst hkr
                constructor
                · unfold roomBarrier
                  dsimp only
                  rw [getEntry_setEntry_self]
                  dsimp only
                  rw [hne1, hall.2]
                  rfl
                · unfold roomAllLoaded
                  rw [hroom]
                  exact all_isLoaded_false_of_unloaded room.players sid player hplayer
                    (by simpa using hnl)
            · refine ⟨?_, fun h => ?_⟩
              · rw [countAPL_roomCast_ne R _ _ _ _ (by simp)]
                exact Nat.zero_le 1
              · rw [countAPL_roomCast_ne R _ _ _ _ (by simp)] at h
                omega

theorem createRoom_rooms_cases (env : Env) (s : GState) (sid : String) (d : CreateRoomDto) :
    (createRoom env s sid d).1 = s ∨
    (∃ room', (createRoom env s sid d).1.rooms =
        setEntry s.rooms (toString (s.seq + 1)) room' ∧
      room'.status = RoomStatus.WAITING) := by
  unfold createRoom
  split
  · exact Or.inl rfl
  · split
    · exact Or.inl rfl
    · split
      · exact Or.inl rfl
      · exact Or.inr ⟨_, rfl, rfl⟩

theorem joinRoom_rooms_cases (env : Env) (s : GState) (sid : String) (d : JoinRoomDto) :
    (joinRoom env s sid d).1 = s ∨
    (∃ room room', getEntry s.rooms d.roomID = some room ∧
      room.status = RoomStatus.WAITING ∧
      (joinRoom env s sid d).1.rooms = setEntry s.rooms d.roomID room') := by
  unfold joinRoom
  split
  · exact Or.inl rfl
  · rename_i room hroom
    split
    · exact Or.inl rfl
    · rename_i hst
      split
      · exact Or.inl rfl
      · split
        · exact Or.inl rfl
        · split
          · exact Or.inl rfl
          · split
            · split
              · exact Or.inl rfl
              · exact Or.inl rfl
            · split
              · exact Or.inl rfl
              · exact Or.inr ⟨room, _, hroom, by simpa using hst, rfl⟩

theorem playerReady_rooms_cases (env : Env) (s : GState) (sid : String)
    (d : PlayerReadyDto) :
    (playerReady env s sid d).1 = s ∨
    (∃ room room', getEntry s.rooms d.roomID = some room ∧
      room.status = RoomStatus.WAITING ∧
      (playerReady env s sid d).1.rooms = setEntry s.rooms d.roomID room') := by
  unfold playerReady
  split
  · exact Or.inl rfl
  · rename_i room hroom
    split
    · exact Or.inl rfl
    · rename_i hst
      split
      · exact Or.inl rfl
      · split
        · exact Or.inl rfl
        · split
          · exact Or.inl rfl
          · split
            · exact Or.inr ⟨room, _, hroom, by simpa using hst, rfl⟩
            · exact Or.inr ⟨room, _, hroom, by simpa using hst, rfl⟩

theorem kickPlayer_rooms_cases (env : Env) (s : GState) (sid : String) (d : KickPlayerDto) :
    (kickPlayer env s sid d).1 = s ∨
    (∃ room, getEntry s.rooms d.roomID = some room ∧
      (kickPlayer env s sid d).1.rooms =
        setEntry s.rooms d.roomID
          ({ room with players := delEntry room.players d.targetSocketID })) := by
  unfold kickPlayer
  split
  · exact Or.inl rfl
  · split
    · exact Or.inl rfl
    · rename_i room hroom
      split
      · exact Or.inl rfl
      · split
        · exact Or.inl rfl
        · split
          · exact Or.inl rfl
          · split
            · exact Or.inr ⟨room, hroom, rfl⟩
            · exact Or.inr ⟨room, hroom, rfl⟩

theorem waitingRoom_rooms_cases (env : Env) (s : GState) (sid : String)
    (d : WaitingRoomDto) :
    (updateStatusWaitingRoom env s sid d).1 = s ∨
    (∃ room', room'.status = RoomStatus.WAITING ∧
      (updateStatusWaitingRoom env s sid d).1.rooms = setEntry s.rooms d.roomID room') := by
  unfold updateStatusWaitingRoom
  split
  · exact Or.inl rfl
  · dsimp only
    split
    · exact Or.inl rfl
    · split
      · exact Or.inr ⟨_, rfl, rfl⟩
      · exact Or.inr ⟨_, rfl, rfl⟩

theorem startGame_rooms_cases (env : Env) (s : GState) (sid : String) (d : StartGameDto) :
    (startGame env s sid d).1 = s ∨
    (∃ room room', getEntry s.rooms d.roomID = some room ∧
      room.status = RoomStatus.WAITING ∧
      (startGame env s sid d).1.rooms = setEntry s.rooms d.roomID room') := by
  unfold startGame
  split
  · exact Or.inl rfl
  · rename_i room hroom
    dsimp only
    split
    · exact Or.inl rfl
    · split
      · exact Or.inl rfl
      · rename_i hst
        split
        · exact Or.inl rfl
        · split
          · exact Or.inl rfl
          · split
            · split
              · exact Or.inr ⟨room, _, hroom, by simpa using hst,
                  by dsimp only; rw [setEntry_setEntry_same]⟩
              · exact Or.inr ⟨room, _, hroom, by simpa using hst,
                  by dsimp only; rw [setEntry_setEntry_same]⟩
            · exact Or.inr ⟨room, _, hroom, by simpa using hst,
                by dsimp only; rw [setEntry_setEntry_same]⟩

theorem leaveRoom_rooms_cases (env : Env) (s : GState) (sid : String) :
    (leaveRoom env s sid).1 = s ∨
    (∃ rme, s.rooms.find? (fun e => (getEntry e.2.players sid).isSome) = some rme ∧
      ((leaveRoom env s sid).1.rooms =
          setEntry s.rooms rme.1 ({ rme.2 with players := delEntry rme.2.players sid }) ∨
        (leaveRoom env s sid).1.rooms =
          delEntry (setEntry s.rooms rme.1
            ({ rme.2 with players := delEntry rme.2.players sid })) rme.1)) := by
  unfold leaveRoom
  split
  · exact Or.inl rfl
  · rename_i rme hfind
    dsimp only
    split
    · exact Or.inr ⟨rme, hfind, Or.inl rfl⟩
    · split
      · exact Or.inr ⟨rme, hfind, Or.inl rfl⟩
      · split
        · split
          · exact Or.inr ⟨rme, hfind, Or.inr rfl⟩
          · exact Or.inr ⟨rme, hfind, Or.inr rfl⟩
        · exact Or.inr ⟨rme, hfind, Or.inl rfl⟩

theorem handleDisconnect_rooms_cases (env : Env) (s : GState) (sid : String) :
    (handleDisconnect env s sid).1.rooms = s.rooms ∨
    (∃ rme, s.rooms.find? (fun e => (getEntry e.2.players sid).isSome) = some rme ∧
      ((handleDisconnect env s sid).1.rooms =
          setEntry s.rooms rme.1 ({ rme.2 with players := delEntry rme.2.players sid }) ∨
        (handleDisconnect env s sid).1.rooms =
          delEntry (setEntry s.rooms rme.1
            ({ rme.2 with players := delEntry rme.2.players sid })) rme.1)) := by
  unfold handleDisconnect
  split
  · exact Or.inl rfl
  · split
    · exact Or.inl rfl
    · rename_i rme hfind
      dsimp only
      split
      · exact Or.inr ⟨rme, hfind, Or.inr rfl⟩
      · exact Or.inr ⟨rme, hfind, Or.inl rfl⟩

theorem loadingGame_rooms_cases (s : GState) (sid : String) (d : LoadingGameDto) :
    (loadingGame s sid d).1 = s ∨
    (∃ room player, getEntry s.rooms d.roomID = some room ∧
      getEntry room.players sid = some player ∧
      player.isLoaded = false ∧
      (loadingGame s sid d).1.rooms =
        setEntry s.rooms d.roomID
          ({ room with
              players := setEntry room.players sid
                ({ player with isLoaded := true, status := PlayerStatus.Ready }) })) := by
  unfold loadingGame
  split
  · exact Or.inl rfl
  · rename_i room hroom
    split
    · exact Or.inl rfl
    · split
      · exact Or.inl rfl
      · rename_i player hplayer
        split
        · exact Or.inl rfl
        · split
          · exact Or.inl rfl
          · rename_i hnl
            dsimp only
            split
            · exact Or.inr ⟨room, player, hroom, hplayer, by simpa using hnl, rfl⟩
            · exact Or.inr ⟨room, player, hroom, hplayer, by simpa using hnl, rfl⟩

theorem syncPosition_rooms_cases (s : GState) (sid : String) (d : PositionSyncDto) :
    (syncPosition s sid d).1 = s ∨
    (∃ room player, getEntry s.rooms d.roomID = some room ∧
      getEntry room.players sid = some player ∧
      (syncPosition s sid d).1.rooms =
        setEntry s.rooms d.roomID
          ({ room with
              players := setEntry room.players sid
                ({ player with
                    position := d.position
                    rotation := d.rotation
                    speed := d.speed
                    distance := d.distance.getD player.distance }) })) := by
  unfold syncPosition
  split
  · exact Or.inl rfl
  · split
    · exact Or.inl rfl
    · rename_i room hroom
      split
      · exact Or.inl rfl
      · split
        · exact Or.inl rfl
        · rename_i player hplayer
          exact Or.inr ⟨room, player, hroom, hplayer, rfl⟩

theorem pres_shape_pre_waiting (s s' : GState) (R K : String) (room room' : RoomData)
    (hget : getEntry s.rooms K = some room) (hst : room.status = RoomStatus.WAITING)
    (hrooms : s'.rooms = setEntry s.rooms K room')
    (hP : roomAllLoaded s R = true) (hrun1 : runningIn s R = true) :
    roomAllLoaded s' R = true := by
  by_cases hk : K = R
  · subst hk
    rw [runningIn_false_of_waiting s K room hget hst] at hrun1
    cases hrun1
  · rw [roomAllLoaded_congr s s' R
      (by rw [hrooms]; exact getEntry_setEntry_ne _ _ _ _ (fun h => hk h.symm))]
    exact hP

theorem pres_shape_post_waiting (s s' : GState) (R K : String) (room' : RoomData)
    (hrooms : s'.rooms = setEntry s.rooms K room') (hst' : room'.status = RoomStatus.WAITING)
    (hP : roomAllLoaded s R = true) (hrun2 : runningIn s' R = true) :
    roomAllLoaded s' R = true := by
  by_cases hk : K = R
  · subst hk
    rw [runningIn_false_of_waiting s' K room'
      (by rw [hrooms]; exact getEntry_setEntry_self _ _ _) hst'] at hrun2
    cases hrun2
  · rw [roomAllLoaded_congr s s' R
      (by rw [hrooms]; exact getEntry_setEntry_ne _ _ _ _ (fun h => hk h.symm))]
    exact hP

theorem pres_shape_del_player (s s' : GState) (R K x : String) (room : RoomData)
    (hget : getEntry s.rooms K = some room)
    (hrooms : s'.rooms = setEntry s.rooms K ({ room with players := delEntry room.players x }))
    (hP : roomAllLoaded s R = true) :
    roomAllLoaded s' R = true := by
  by_cases hk : K = R
  · subst hk
    unfold roomAllLoaded
    rw [hrooms, getEntry_setEntry_self]
    exact allB_delEntry _ _ _ (roomAllLoaded_some s K room hget hP)
  · rw [roomAllLoaded_congr s s' R
      (by rw [hrooms]; exact getEntry_setEntry_ne _ _ _ _ (fun h => hk h.symm))]
    exact hP

theorem pres_shape_host_del (s s' : GState) (R K : String) (roomX : RoomData)
    (hrooms : s'.rooms = delEntry (setEntry s.rooms K roomX) K)
    (hP : roomAllLoaded s R = true) (hrun2 : runningIn s' R = true) :
    roomAllLoaded s' R = true := by
  by_cases hk : K = R
  · subst hk
    rw [runningIn_false_of_none s' K
      (by rw [hrooms]; exact getEntry_delEntry_self _ _)] at hrun2
    cases hrun2
  · rw [roomAllLoaded_congr s s' R
      (by
        rw [hrooms, getEntry_delEntry_ne _ _ _ (fun h => hk h.symm)]
        exact getEntry_setEntry_ne _ _ _ _ (fun h => hk h.symm))]
    exact hP

theorem pres_shape_set_loaded (s s' : GState) (R K sid : String) (room : RoomData)
    (player player1 : PlayerData)
    (hget : getEntry s.rooms K = some room)
    (hp : getEntry room.players sid = some player)
    (hl : player1.isLoaded = player.isLoaded ∨ player1.isLoaded = true)
    (hrooms : s'.rooms =
      setEntry s.rooms K ({ room with players := setEntry room.players sid player1 }))
    (hP : roomAllLoaded s R = true) :
    roomAllLoaded s' R = true := by
  by_cases hk : K = R
  · subst hk
    unfold roomAllLoaded
    rw [hrooms, getEntry_setEntry_self]
    refine allB_setEntry _ _ _ _ (roomAllLoaded_some s K room hget hP) ?_
    show player1.isLoaded = true
    rcases hl with hl | hl
    · rw [hl]
      exact all_isLoaded_getEntry room.players sid player
        (roomAllLoaded_some s K room hget hP) hp
    · exact hl
  · rw [roomAllLoaded_congr s s' R
      (by rw [hrooms]; exact getEntry_setEntry_ne _ _ _ _ (fun h => hk h.symm))]
    exact hP

theorem pres_step (env : Env) (s : GState) (e : Ev) (R : String)
    (hwf : (s.rooms.map Prod.fst).Nodup)
    (hP : roomAllLoaded s R = true)
    (hrun1 : runningIn s R = true)
    (hrun2 : runningIn (step env s e).1 R = true) :
    roomAllLoaded (step env s e).1 R = true := by
  cases e with
  | connect sid => exact hP
  | create sid d =>
    dsimp only [step] at hrun2 ⊢
    rcases createRoom_rooms_cases env s sid d with hsame | ⟨room', hrooms, hst'⟩
    · rw [hsame]; exact hP
    · exact pres_shape_post_waiting s _ R _ room' hrooms hst' hP hrun2
  | join sid d =>
    dsimp only [step] at hrun2 ⊢
    rcases joinRoom_rooms_cases env s sid d with hsame | ⟨room, room', hget, hst, hrooms⟩
    · rw [hsame]; exact hP
    · exact pres_shape_pre_waiting s _ R _ room room' hget hst hrooms hP hrun1
  | leave sid =>
    dsimp only [step] at hrun2 ⊢
    rcases leaveRoom_rooms_cases env s sid with hsame | ⟨rme, hfind, hrooms | hrooms⟩
    · rw [hsame]; exact hP
    · exact pres_shape_del_player s _ R rme.1 sid rme.2
        (getEntry_of_mem_nodup _ _ _ hwf (List.mem_of_find?_eq_some hfind)) hrooms hP
    · exact pres_shape_host_del s _ R rme.1 _ hrooms hP hrun2
  | kick sid d =>
    dsimp only [step] at hrun2 ⊢
    rcases kickPlayer_rooms_cases env s sid d with hsame | ⟨room, hget, hrooms⟩
    · rw [hsame]; exact hP
    · exact pres_shape_del_player s _ R d.roomID d.targetSocketID room hget hrooms hP
  | disconnect sid =>
    dsimp only [step] at hrun2 ⊢
    rcases handleDisconnect_rooms_cases env s sid with hsame | ⟨rme, hfind, hrooms | hrooms⟩
    · rw [roomAllLoaded_congr s _ R (by rw [hsame])]; exact hP
    · exact pres_shape_del_player s _ R rme.1 sid rme.2
        (getEntry_of_mem_nodup _ _ _ hwf (List.mem_of_find?_eq_some hfind)) hrooms hP
    · exact pres_shape_host_del s _ R rme.1 _ hrooms hP hrun2
  | ready sid d =>
    dsimp only [step] at hrun2 ⊢
    rcases playerReady_rooms_cases env s sid d with hsame | ⟨room, room', hget, hst, hrooms⟩
    · rw [hsame]; exact hP
    · exact pres_shape_pre_waiting s _ R _ room room' hget hst hrooms hP hrun1
  | changeCar sid d =>
    dsimp only [step] at hrun2 ⊢
    rcases playerChangeCar_cases env s sid d with hsame |
      ⟨room, player, hget, hst, hp, -, -, -, -, hres⟩
    · rw [hsame]; exact hP
    · exact pres_shape_pre_waiting s _ R _ room _ hget hst (by rw [hres]) hP hrun1
  | loading sid d =>
    dsimp only [step] at hrun2 ⊢
    rcases loadingGame_rooms_cases s sid d with hsame |
      ⟨room, player, hget, hp, hnl, hrooms⟩
    · rw [hsame]; exact hP
    · exact pres_shape_set_loaded s _ R d.roomID sid room player _ hget hp
        (Or.inr rfl) hrooms hP
  | start sid d =>
    dsimp only [step] at hrun2 ⊢
    rcases startGame_rooms_cases env s sid d with hsame | ⟨room, room', hget, hst, hrooms⟩
    · rw [hsame]; exact hP
    · exact pres_shape_pre_waiting s _ R _ room room' hget hst hrooms hP hrun1
  | waiting sid d =>
    dsimp only [step] at hrun2 ⊢
    rcases waitingRoom_rooms_cases env s sid d with hsame | ⟨room', hst', hrooms⟩
    · rw [hsame]; exact hP
    · exact pres_shape_post_waiting s _ R _ room' hrooms hst' hP hrun2
  | syncPos sid d =>
    dsimp only [step] at hrun2 ⊢
    rcases syncPosition_rooms_cases s sid d with hsame |
      ⟨room, player, hget, hp, hrooms⟩
    · rw [hsame]; exact hP
    · exact pres_shape_set_loaded s _ R d.roomID sid room player
        ({ player with
            position := d.position
            rotation := d.rotation
            speed := d.speed
            distance := d.distance.getD player.distance })
        hget hp (Or.inl rfl) hrooms hP
  | syncCarPos sid d =>
    dsimp only [step] at hrun2 ⊢
    have hsame : (syncCarPosition s sid d).1 = s := by
      unfold syncCarPosition
      split
      · rfl
      · split
        · rfl
        · split
          · rfl
          · split
            · rfl
            · rfl
    show roomAllLoaded (syncCarPosition s sid d).1 R = true
    rw [hsame]
    exact hP

theorem apl_step (env : Env) (s : GState) (e : Ev) (R : String) :
    countAPL R (step env s e).2 ≤ 1 ∧
    (1 ≤ countAPL R (step env s e).2 →
      roomBarrier (step env s e).1 R = true ∧ roomAllLoaded s R = false) := by
  cases e with
  | connect sid =>
    dsimp only [step]
    rw [apl_connectClient]
    exact ⟨Nat.zero_le 1, fun h => absurd h (by omega)⟩
  | create sid d =>
    dsimp only [step]
    rw [apl_createRoom]
    exact ⟨Nat.zero_le 1, fun h => absurd h (by omega)⟩
  | join sid d =>
    dsimp only [step]
    rw [apl_joinRoom]
    exact ⟨Nat.zero_le 1, fun h => absurd h (by omega)⟩
  | leave sid =>
    dsimp only [step]
    rw [apl_leaveRoom]
    exact ⟨Nat.zero_le 1, fun h => absurd h (by omega)⟩
  | kick sid d =>
    dsimp only [step]
    rw [apl_kickPlayer]
    exact ⟨Nat.zero_le 1, fun h => absurd h (by omega)⟩
  | disconnect sid =>
    dsimp only [step]
    rw [apl_handleDisconnect]
    exact ⟨Nat.zero_le 1, fun h => absurd h (by omega)⟩
  | ready sid d =>
    dsimp only [step]
    rw [apl_playerReady]
    exact ⟨Nat.zero_le 1, fun h => absurd h (by omega)⟩
  | changeCar sid d =>
    dsimp only [step]
    rw [apl_playerChangeCar]
    exact ⟨Nat.zero_le 1, fun h => absurd h (by omega)⟩
  | loading sid d =>
    dsimp only [step]
    exact apl_loadingGame R s sid d
  | start sid d =>
    dsimp only [step]
    rw [apl_startGame]
    exact ⟨Nat.zero_le 1, fun h => absurd h (by omega)⟩
  | waiting sid d =>
    dsimp only [step]
    rw [apl_updateStatusWaitingRoom]
    exact ⟨Nat.zero_le 1, fun h => absurd h (by omega)⟩
  | syncPos sid d =>
    dsimp only [step]
    rw [apl_syncPosition]
    exact ⟨Nat.zero_le 1, fun h => absurd h (by omega)⟩
  | syncCarPos sid d =>
    dsimp only [step]
    rw [apl_syncCarPosition]
    exact ⟨Nat.zero_le 1, fun h => absurd h (by omega)⟩

theorem apl_trace (env : Env) (henv : EnvWf env) :
    ∀ (evs : List Ev) (s : GState) (R : String), RoomsInv s.rooms →
      (∀ s' ∈ statesOf env s evs, runningIn s' R = true) →
      countAPL R (run env s evs).2 ≤ 1 ∧
      (roomAllLoaded s R = true → countAPL R (run env s evs).2 = 0) := by
  intro evs
  induction evs with
  | nil =>
    intro s R hri hall
    exact ⟨Nat.zero_le 1, fun _ => rfl⟩
  | cons e evs ih =>
    intro s R hri hall
    have hrun1 : runningIn s R = true := hall s (List.mem_cons_self _ _)
    have hs1mem : (step env s e).1 ∈ statesOf env (step env s e).1 evs := by
      cases evs with
      | nil => exact List.mem_cons_self _ _
      | cons e' t => exact List.mem_cons_self _ _
    have hrun2 : runningIn (step env s e).1 R = true :=
      hall (step env s e).1 (List.mem_cons_of_mem s hs1mem)
    have hall' : ∀ s' ∈ statesOf env (step env s e).1 evs, runningIn s' R = true :=
      fun s' hs' => hall s' (List.mem_cons_of_mem s hs')
    have hri1 : RoomsInv (step env s e).1.rooms := inv_step env henv s e hri
    have IH := ih (step env s e).1 R hri1 hall'
    have hstep := apl_step env s e R
    rw [show (run env s (e :: evs)).2 =
      (step env s e).2 ++ (run env (step env s e).1 evs).2 from rfl]
    rw [countAPL_append]
    by_cases hPs : roomAllLoaded s R = true
    · have h0 : countAPL R (step env s e).2 = 0 := by
        by_cases h1 : 1 ≤ countAPL R (step env s e).2
        · rw [(hstep.2 h1).2] at hPs
          cases hPs
        · omega
      have hP1 : roomAllLoaded (step env s e).1 R = true :=
        pres_step env s e R hri.1 hPs hrun1 hrun2
      rw [h0, IH.2 hP1]
      exact ⟨by omega, fun _ => rfl⟩
    · refine ⟨?_, fun hcon => absurd hcon hPs⟩
      by_cases h1 : 1 ≤ countAPL R (step env s e).2
      · have hbar := hstep.2 h1
        have hP1 : roomAllLoaded (step env s e).1 R = true :=
          roomBarrier_allLoaded _ _ hbar.1
        have hrest := IH.2 hP1
        have hle := hstep.1
        omega
      · have hrest := IH.1
        omega

/-- C2: along any event sequence during which the room exists and stays in
Running status (one Running episode), the allPlayersLoaded signal is
broadcast to that room at most once; and whenever any single dispatch
emits it, the room at that moment has at least one session, every
currently-present session's load flag is true (the barrier holds in the
post-dispatch state), and the room was not yet fully loaded beforehand, so
it is never emitted for a room with zero sessions. -/
theorem C2_allPlayersLoaded_once (env : Env) (s : GState) (R : String) (evs : List Ev)
    (henv : EnvWf env) (hri : RoomsInv s.rooms)
    (hrun : ∀ s' ∈ statesOf env s evs, runningIn s' R = true) :
    countAPL R (run env s evs).2 ≤ 1 ∧
    (∀ (s' : GState) (e : Ev), 1 ≤ countAPL R (step env s' e).2 →
      roomBarrier (step env s' e).1 R = true ∧ roomAllLoaded s' R = false) :=
  ⟨(apl_trace env henv evs s R hri hrun).1, fun s' e h => (apl_step env s' e R).2 h⟩

/-- The two-session room of readyState, already started (Running). -/
def runningRoom : RoomData :=
  { readyRoom with status := RoomStatus.RUNNING }

/-- The directory state holding runningRoom, both sessions registered. -/
def runningState : GState :=
  { readyState with rooms := [("4", runningRoom)] }

/-- Loading events driving the C2 witness: both sessions report loading,
then one sends a duplicate. -/
def c2Events : List Ev :=
  [Ev.loading "h" { roomID := "4", playerID := "P1" },
   Ev.loading "g" { roomID := "4", playerID := "P2" },
   Ev.loading "g" { roomID := "4", playerID := "P2" }]

/-- Witness for C2: on a concrete Running episode with two sessions, the
signal is broadcast exactly once. -/
theorem C2_witness :
    countAPL "4" (run envAll runningState c2Events).2 ≤ 1 ∧
    countAPL "4" (run envAll runningState c2Events).2 = 1 :=
  ⟨(C2_allPlayersLoaded_once envAll runningState "4" c2Events
      (by
        intro id p hp
        simp only [envAll] at hp
        split at hp
        · obtain rfl := Option.some.inj hp
          rfl
        · cases hp)
      (by
        refine ⟨by decide, ?_⟩
        intro pid
        by_cases hp1 : pid = "P1"
        · subst hp1
          decide
        · by_cases hp2 : pid = "P2"
          · subst hp2
            decide
          · have hz : pidCountR runningState.rooms pid = 0 := by
              simp [pidCountR, wsum, pcountPlayers, runningState, runningRoom, readyRoom,
                readyState, hostSession, guestSession, Ne.symm hp1, Ne.symm hp2]
            rw [hz]
            omega)
      (by decide)).1,
   by decide⟩

end Racing

